import Mathlib

/-!
Verification development for the sub-threshold training plan generator.

The pace model and weekly plan synthesiser (`src/utils/calculations.ts`) are
embedded over the real numbers (JavaScript numbers are idealised as reals;
`NaN`/`Infinity` are not representable, which is noted at each guard that
tests `isFinite`).  The FIT/ICU workout encoder (`buildFitWorkoutSteps`,
`formatIcuWorkoutText`, `parsePaceRangeToSpeedRaw`, `parseDurationToFit`,
`isPlaceholderStep`) is embedded over the rationals so that step construction
is executable.  String primitives (`trim`, `toLowerCase`, `split`, the regex
cascades) are implemented on character lists by structural recursion so that
concrete encodings can be evaluated inside proofs.
-/

namespace SubT

/-! ### JavaScript string primitives -/

/-- ASCII whitespace, modelling the whitespace class used by JavaScript
`trim`, `\s` and `parseInt` for the inputs occurring in this code base. -/
def isJsWs (c : Char) : Bool := c = ' ' || c = '\t' || c = '\n' || c = '\r'

def lowerChars : List Char → List Char
  | [] => []
  | c :: cs => c.toLower :: lowerChars cs

/-- `String.prototype.toLowerCase` (ASCII). -/
def jsToLower (s : String) : String := ⟨lowerChars s.data⟩

/-- `String.prototype.trim` (ASCII whitespace). -/
def jsTrim (s : String) : String :=
  ⟨((s.data.dropWhile isJsWs).reverse.dropWhile isJsWs).reverse⟩

def splitCharAux (sep : Char) : List Char → List Char → List (List Char)
  | [], acc => [acc.reverse]
  | c :: cs, acc =>
    if c = sep then acc.reverse :: splitCharAux sep cs []
    else splitCharAux sep cs (c :: acc)

/-- `String.prototype.split` with a single-character separator. -/
def splitChar (sep : Char) (s : String) : List String :=
  (splitCharAux sep s.data []).map (fun l => ⟨l⟩)

def digitsToNat (ds : List Char) : ℕ :=
  ds.foldl (fun n c => n * 10 + (c.toNat - 48)) 0

/-- `parseInt(s) || 0`: skip leading whitespace, optional sign, then the
longest digit prefix; anything unparsable yields `NaN`, which `|| 0`
collapses to `0`.  (Radix prefixes such as `0x` are not modelled; the inputs
are clock components.) -/
def parseIntOr0 (s : String) : ℤ :=
  let l := s.data.dropWhile isJsWs
  match l with
  | '-' :: rest =>
    let ds := rest.takeWhile Char.isDigit
    if ds = [] then 0 else -(digitsToNat ds : ℤ)
  | '+' :: rest =>
    let ds := rest.takeWhile Char.isDigit
    if ds = [] then 0 else (digitsToNat ds : ℤ)
  | _ =>
    let ds := l.takeWhile Char.isDigit
    if ds = [] then 0 else (digitsToNat ds : ℤ)

def natToCharsAux : ℕ → ℕ → List Char
  | 0, _ => []
  | fuel + 1, n =>
    if n < 10 then [Char.ofNat (48 + n)]
    else natToCharsAux fuel (n / 10) ++ [Char.ofNat (48 + n % 10)]

/-- Decimal rendering of a natural number (JavaScript template-literal
printing of a nonnegative integer-valued number). -/
def natToStr (n : ℕ) : String := ⟨natToCharsAux (n + 1) n⟩

/-- Decimal rendering of an integer. -/
def intToStr (i : ℤ) : String :=
  if i < 0 then "-" ++ natToStr i.natAbs else natToStr i.toNat

/-- JavaScript printing of the value `k / 10` (with `k ≥ 0`), as produced by
`Math.round(x * 10) / 10` in a template literal: no decimal point when the
value is integral, otherwise one decimal digit. -/
def decimalTenth (k : ℤ) : String :=
  if k % 10 = 0 then intToStr (k / 10)
  else intToStr (k / 10) ++ "." ++ intToStr (k % 10)

/-- JavaScript printing of the value `k / 1000` (with `k ≥ 0`), as produced
by `Math.round(x * 1000) / 1000` in a template literal: trailing zeros of
the fractional part are not printed. -/
def thousandthsStr (k : ℤ) : String :=
  let ip := intToStr (k / 1000)
  let r := k % 1000
  if r = 0 then ip
  else
    let d1 := intToStr (r / 100)
    let d2 := intToStr (r / 10 % 10)
    let d3 := intToStr (r % 10)
    if r % 10 ≠ 0 then ip ++ "." ++ d1 ++ d2 ++ d3
    else if r / 10 % 10 ≠ 0 then ip ++ "." ++ d1 ++ d2
    else ip ++ "." ++ d1

/-- Decimal rendering of a rational (JavaScript number printing restricted to
the decimally-representable values this code constructs; at most six
fractional digits are produced). -/
def qToDecString (q : ℚ) : String :=
  let sign := if q < 0 then "-" else ""
  let n := q.num.natAbs
  let d := q.den
  let ip := natToStr (n / d)
  let r0 := n % d
  if r0 = 0 then sign ++ ip
  else
    let digits : List Char :=
      (List.range 6).foldl
        (fun (st : List Char × ℕ) _ =>
          let r := st.2 * 10
          (st.1 ++ [Char.ofNat (48 + r / d)], r % d))
        ([], r0) |>.1
    let trimmed := (digits.reverse.dropWhile (fun c => c = '0')).reverse
    if trimmed = [] then sign ++ ip else sign ++ ip ++ "." ++ (⟨trimmed⟩ : String)

def joinSep (sep : String) : List String → String
  | [] => ""
  | [x] => x
  | x :: xs => x ++ sep ++ joinSep sep xs

/-! ### Rounding primitives -/

noncomputable section

/-- `Math.round` on a (finite) JavaScript number: round half toward `+∞`. -/
def jround (x : ℝ) : ℤ := ⌊x + 1 / 2⌋

/-- `Math.round(x * 10) / 10`: round to one decimal. -/
def jround1 (x : ℝ) : ℝ := ((jround (x * 10) : ℤ) : ℝ) / 10

/-- Truncation toward zero, as used by the JavaScript `%` operator. -/
def jtrunc (x : ℝ) : ℤ := if 0 ≤ x then ⌊x⌋ else -⌊-x⌋

/-- The JavaScript remainder operator `x % y` on finite numbers. -/
def jsMod (x y : ℝ) : ℝ := x - y * ((jtrunc (x / y) : ℤ) : ℝ)

end

/-- `Math.round` on rationals, for the encoder embedding. -/
def qround (q : ℚ) : ℤ := ⌊q + 1 / 2⌋

theorem jround_eq (x : ℝ) (n : ℤ) (h1 : (n : ℝ) ≤ x + 1 / 2)
    (h2 : x + 1 / 2 < n + 1) : jround x = n := by
  rw [jround, Int.floor_eq_iff]
  exact ⟨h1, h2⟩

theorem jround_le (x : ℝ) : ((jround x : ℤ) : ℝ) ≤ x + 1 / 2 := Int.floor_le _

theorem lt_jround (x : ℝ) : x - 1 / 2 < ((jround x : ℤ) : ℝ) := by
  have h := Int.lt_floor_add_one (x + 1 / 2)
  rw [jround]
  push_cast at h ⊢
  linarith

theorem abs_jround_sub (x : ℝ) : |((jround x : ℤ) : ℝ) - x| ≤ 1 / 2 := by
  rw [abs_le]
  constructor
  · linarith [lt_jround x]
  · linarith [jround_le x]

theorem abs_jround1_sub (x : ℝ) : |jround1 x - x| ≤ 1 / 20 := by
  have h := abs_jround_sub (x * 10)
  rw [jround1]
  have : ((jround (x * 10) : ℤ) : ℝ) / 10 - x = (((jround (x * 10) : ℤ) : ℝ) - x * 10) / 10 := by
    ring
  rw [this, abs_div]
  rw [show |(10 : ℝ)| = 10 by norm_num]
  linarith

theorem jround1_le_add (x : ℝ) : jround1 x ≤ x + 1 / 20 := by
  have h := abs_jround1_sub x
  rw [abs_le] at h
  linarith [h.2]

theorem jround1_mono {x y : ℝ} (h : x ≤ y) : jround1 x ≤ jround1 y := by
  rw [jround1, jround1]
  have : jround (x * 10) ≤ jround (y * 10) := by
    rw [jround, jround]
    exact Int.floor_le_floor (by linarith)
  have hc : ((jround (x * 10) : ℤ) : ℝ) ≤ ((jround (y * 10) : ℤ) : ℝ) := by exact_mod_cast this
  linarith

theorem qround_eq (q : ℚ) (n : ℤ) (h1 : (n : ℚ) ≤ q + 1 / 2)
    (h2 : q + 1 / 2 < n + 1) : qround q = n := by
  rw [qround, Int.floor_eq_iff]
  exact ⟨h1, h2⟩

/-! ### Data model (`src/types.ts`)

`WorkoutSession`/`Interval` are polymorphic in the number type: the plan
synthesiser instantiates them at `ℝ`, the encoder at `ℚ`.  Identity and
UI-only fields (`id`, `environment`, `treadmillInclinePct`, `scheduled`,
`icuEventId`, `variants`) are not referenced by any of the operations
verified here and are omitted; `variants` carries the alternate long-run
forms, whose selected representative's fields already populate the session
itself. -/

inductive DayType
  | REST
  | EASY
  | THRESHOLD
  | LONG_RUN
deriving DecidableEq

inductive WorkoutType
  | EASY
  | THRESHOLD
  | LONG_RUN
  | REST
  | RACE
deriving DecidableEq

inductive Sport
  | run
  | bike
deriving DecidableEq

inductive Weekday
  | monday
  | tuesday
  | wednesday
  | thursday
  | friday
  | saturday
  | sunday
deriving DecidableEq

/-- `['Monday', ..., 'Sunday']`, the iteration order of the week used by
`generatePlan`; the schedule object's keys are exactly these seven names
(invariant of the data model), so the schedule is modelled as a total
function on `Weekday`. -/
def dayOrder : List Weekday :=
  [.monday, .tuesday, .wednesday, .thursday, .friday, .saturday, .sunday]

structure Interval (α : Type) where
  distance : α
  count : ℕ
  pace : String
  rest : String
  description : String
  durationSec : Option α := none
  targetZone : Option String := none
  targetPowerLow : Option α := none
  targetPowerHigh : Option α := none
deriving DecidableEq

structure WorkoutSession (α : Type) where
  title : String
  type : WorkoutType
  sport : Sport
  useHeartRateTarget : Bool := false
  targetHrLow : Option α := none
  targetHrHigh : Option α := none
  distance : α
  duration : α
  description : String := ""
  intervals : List (Interval α) := []
  warmup : String := ""
  cooldown : String := ""
deriving DecidableEq

structure DailyPlan where
  day : Weekday
  type : DayType
  session : Option (WorkoutSession ℝ)

structure WeeklyPlan where
  totalDistance : ℝ
  days : List DailyPlan

/-- `UserProfile`: numeric fields are kept rational (they are user-entered
decimals) and cast to `ℝ` where arithmetic happens.  `raceDistance2`,
`raceTime2`, `ftp` and `scheduleSport` are the optional fields accessed via
`any` in `calculations.ts`; an absent `ftp` behaves as `0` under
`Number(profile.ftp) || 0`, so it is modelled as a plain rational, and an
absent per-day sport resolves to `'run'`. -/
structure UserProfile where
  raceDistance : ℚ
  raceTime : String
  weeklyVolume : ℚ
  schedule : Weekday → DayType
  scheduleSport : Weekday → Sport := fun _ => Sport.run
  warmupDist : ℚ
  cooldownDist : ℚ
  ftp : ℚ := 0
  raceDistance2 : Option ℚ := none
  raceTime2 : Option String := none

/-! ### `src/utils/calculations.ts` -/

/-- `timeToSeconds`: split on `':'`, parse each part with `parseInt(_) || 0`,
combine as `H:M:S`, `M:S`, or take the first part.  (`parseInt` accepts a
sign, so negative components are representable.) -/
def timeToSeconds (time : String) : ℤ :=
  if time = "" then 0
  else
    match (splitChar ':' time).map parseIntOr0 with
    | [h, m, s] => h * 3600 + m * 60 + s
    | [m, s] => m * 60 + s
    | a :: _ => a
    | [] => 0

noncomputable section

/-- `secondsToTime`: clock rendering.  The `isNaN` guard is unrepresentable
over `ℝ`; nonpositive input renders as `"0:00"`.  Note that the seconds
component is rounded independently of the minute component. -/
def secondsToTime (seconds : ℝ) : String :=
  if seconds ≤ 0 then "0:00"
  else
    let h : ℤ := ⌊seconds / 3600⌋
    let m : ℤ := ⌊jsMod seconds 3600 / 60⌋
    let s : ℤ := jround (jsMod seconds 60)
    let mStr := if m < 10 ∧ 0 < h then "0" ++ intToStr m else intToStr m
    let sStr := if s < 10 then "0" ++ intToStr s else intToStr s
    if 0 < h then intToStr h ++ ":" ++ mStr ++ ":" ++ sStr
    else mStr ++ ":" ++ sStr

/-- `getWeatherPaceDeltaSeconds`: additive weather penalty, clamped to
`[-5, 20]` and rounded.  The `!isFinite(basePaceSec)` disjunct of the guard
is unrepresentable over `ℝ`; `basePaceSec ≤ 0` is the representable part. -/
def getWeatherPaceDeltaSeconds (basePaceSec temperatureC humidityPct windKmh : ℝ) : ℝ :=
  if basePaceSec ≤ 0 then 0
  else
    let d1 : ℝ := if 12 < temperatureC then (temperatureC - 12) * 0.5 else 0
    let d2 : ℝ := d1 + (if temperatureC < 5 then (5 - temperatureC) * 0.25 else 0)
    let d3 : ℝ := d2 + (if 18 ≤ temperatureC ∧ 60 < humidityPct then (humidityPct - 60) / 10 * 0.6 else 0)
    let delta : ℝ := d3 + (if 12 < windKmh then (windKmh - 12) * 0.12 else 0)
    let bounded : ℝ := max (-5) (min 20 delta)
    ((jround bounded : ℤ) : ℝ)

/-- `applyPaceCorrection`: nonpositive (or, in JavaScript, non-finite) pace
yields `0`; otherwise the corrected pace, floored at `1`. -/
def applyPaceCorrection (paceSec deltaSec : ℝ) : ℝ :=
  if paceSec ≤ 0 then 0 else max 1 (paceSec + deltaSec)

/-- `predictRaceTime`: Riegel power-law prediction with fatigue exponent
`1.06` (real exponentiation). -/
def predictRaceTime (raceDistMeters : ℝ) (raceTimeStr : String) (targetDistMeters : ℝ) : ℝ :=
  let tInput : ℝ := ((timeToSeconds raceTimeStr : ℤ) : ℝ)
  if tInput = 0 ∨ raceDistMeters = 0 ∨ targetDistMeters = 0 then 0
  else tInput * (targetDistMeters / raceDistMeters) ^ (1.06 : ℝ)

/-- `calculatePaceForDistance`: predicted seconds per kilometre at the target
distance. -/
def calculatePaceForDistance (raceDistMeters : ℝ) (raceTimeStr : String)
    (targetDistMeters : ℝ) : ℝ :=
  let predictedSeconds := predictRaceTime raceDistMeters raceTimeStr targetDistMeters
  if predictedSeconds = 0 then 0 else predictedSeconds / (targetDistMeters / 1000)

structure RaceEquivPaces where
  p15k : ℝ
  pHalf : ℝ
  p30k : ℝ
  pMarathon : ℝ

/-- `getRaceEquivalentPaces`: predicted paces at 15K, half marathon, 30K and
marathon. -/
def getRaceEquivalentPaces (p : UserProfile) : RaceEquivPaces :=
  { p15k := calculatePaceForDistance (↑p.raceDistance) p.raceTime 15000
    pHalf := calculatePaceForDistance (↑p.raceDistance) p.raceTime 21097
    p30k := calculatePaceForDistance (↑p.raceDistance) p.raceTime 30000
    pMarathon := calculatePaceForDistance (↑p.raceDistance) p.raceTime 42195 }

/-- The 30-iteration bisection loop of
`estimate60MinThresholdFromSingleResult`: `tMid === 0` breaks, a prediction
above 60 minutes shrinks the upper bound, otherwise the lower bound rises. -/
def thresholdSearchLoop (d : ℝ) (t : String) : ℕ → ℝ × ℝ → ℝ × ℝ
  | 0, lh => lh
  | n + 1, (low, high) =>
    let mid := (low + high) / 2
    let tMid := predictRaceTime d t mid
    if tMid = 0 then (low, high)
    else if 3600 < tMid then thresholdSearchLoop d t n (low, mid)
    else thresholdSearchLoop d t n (mid, high)

/-- `estimate60MinThresholdFromSingleResult` (A1): invert the Riegel model by
bisection on `[6000, 30000]` for the distance whose prediction is 3600 s,
using the benchmark's own pace when it is within 30 s of one hour. -/
def estimate60MinThresholdFromSingleResult (raceDistMeters : ℝ) (raceTimeStr : String) : ℝ :=
  let tInput : ℝ := ((timeToSeconds raceTimeStr : ℤ) : ℝ)
  if tInput = 0 ∨ raceDistMeters = 0 then 0
  else if |tInput - 3600| ≤ 30 then tInput / (raceDistMeters / 1000)
  else
    let r := thresholdSearchLoop raceDistMeters raceTimeStr 30 (6000, 30000)
    let distAt60 := (r.1 + r.2) / 2
    if distAt60 ≤ 0 then 0 else 3600 / (distAt60 / 1000)

/-- `estimate60MinThresholdFromCriticalSpeed` (C3): two-point critical-speed
model.  An absent `raceDistance2` is `Number(undefined) = NaN`, failing the
`isFinite` guard; the remaining non-finiteness guards are unrepresentable
over `ℝ`. -/
def estimate60MinThresholdFromCriticalSpeed (p : UserProfile) : ℝ :=
  match p.raceDistance2 with
  | none => 0
  | some d2q =>
    let d1 : ℝ := ↑p.raceDistance
    let d2 : ℝ := ↑d2q
    let t1 : ℝ := ((timeToSeconds p.raceTime : ℤ) : ℝ)
    let t2 : ℝ := ((timeToSeconds (p.raceTime2.getD "") : ℤ) : ℝ)
    if d1 ≤ 0 ∨ d2 ≤ 0 then 0
    else if t1 ≤ 0 ∨ t2 ≤ 0 then 0
    else if t2 ≤ t1 ∨ d2 ≤ d1 then 0
    else
      let cs := (d2 - d1) / (t2 - t1)
      if cs ≤ 0 then 0 else 1000 / cs * 1.01

/-- `get60MinThresholdPace`: prefer the critical-speed estimate whenever it is
positive. -/
def get60MinThresholdPace (p : UserProfile) : ℝ :=
  let csPace := estimate60MinThresholdFromCriticalSpeed p
  if 0 < csPace then csPace
  else estimate60MinThresholdFromSingleResult (↑p.raceDistance) p.raceTime

/-- `calculateThresholdPace`: with a profile argument delegates to
`get60MinThresholdPace`, otherwise to the single-result estimate. -/
def calculateThresholdPace (raceDistMeters : ℝ) (raceTimeStr : String)
    (profile : Option UserProfile) : ℝ :=
  match profile with
  | some p => get60MinThresholdPace p
  | none => estimate60MinThresholdFromSingleResult raceDistMeters raceTimeStr

structure EasyRange where
  low : ℝ
  high : ℝ
  center : ℝ

/-- `getEasyRunPaceRange`: marathon pace plus a `[74, 104]` band, with a
threshold-multiple fallback, both ends environment-corrected. -/
def getEasyRunPaceRange (p : UserProfile) (correctionSec : ℝ) : EasyRange :=
  let pMarathon := (getRaceEquivalentPaces p).pMarathon
  let low0 : ℝ := if 0 < pMarathon then pMarathon + 74 else 0
  let high0 : ℝ := if 0 < pMarathon then pMarathon + 104 else 0
  let low1 : ℝ :=
    if low0 ≤ 0 ∨ high0 ≤ 0 then
      calculateThresholdPace (↑p.raceDistance) p.raceTime (some p) * 1.32
    else low0
  let high1 : ℝ :=
    if low0 ≤ 0 ∨ high0 ≤ 0 then
      calculateThresholdPace (↑p.raceDistance) p.raceTime (some p) * 1.44
    else high0
  let correctedLow := applyPaceCorrection low1 correctionSec
  let correctedHigh := applyPaceCorrection high1 correctionSec
  { low := correctedLow, high := correctedHigh, center := (correctedLow + correctedHigh) / 2 }

structure SinglesPace where
  paceSec : ℝ
  effort : String

/-- `getSinglesTargetPace` (B): map a repetition distance to a race-equivalent
anchor with a per-bracket offset, defaulting to the 60-minute threshold
anchor with effort "Subthreshold Pace"; the result is
environment-corrected. -/
def getSinglesTargetPace (p : UserProfile) (repDistanceMeters threshold60PaceSec correctionSec : ℝ) :
    SinglesPace :=
  if threshold60PaceSec ≤ 0 then { paceSec := 0, effort := "NSA Singles" }
  else
    let r := getRaceEquivalentPaces p
    let be : ℝ × String :=
      if repDistanceMeters ≤ 450 ∧ 0 < r.p15k then (r.p15k - 9, "400m Pace")
      else if repDistanceMeters ≤ 650 ∧ 0 < r.p15k then (r.p15k - 6, "600m Pace")
      else if repDistanceMeters ≤ 850 ∧ 0 < r.p15k then (r.p15k - 3, "800m Pace")
      else if repDistanceMeters ≤ 1000 ∧ 0 < r.p15k then (r.p15k, "1K Pace")
      else if repDistanceMeters ≤ 2000 ∧ 0 < r.pHalf then (r.pHalf, "Half Marathon Pace")
      else if repDistanceMeters ≤ 3500 ∧ 0 < r.p30k then (r.p30k, "30K Pace")
      else if 0 < r.pMarathon then (r.pMarathon, "Marathon Pace")
      else (threshold60PaceSec, "Subthreshold Pace")
    { paceSec := applyPaceCorrection be.1 correctionSec, effort := be.2 }

structure IntervalPaceRange where
  range : String
  effort : String

/-- `getIntervalPaceRange`: a fixed ten-second band above the singles target
pace, or `"0:00-0:00"` when no pace is derivable. -/
def getIntervalPaceRange (p : UserProfile) (distanceMeters correctionSec : ℝ) :
    IntervalPaceRange :=
  let threshold60 := get60MinThresholdPace p
  let sp := getSinglesTargetPace p distanceMeters threshold60 correctionSec
  if sp.paceSec = 0 then { range := "0:00-0:00", effort := sp.effort }
  else
    { range := secondsToTime sp.paceSec ++ "-" ++ secondsToTime (sp.paceSec + 10)
      effort := sp.effort }

/-- `formatThresholdSessionTitle`: "SubT {reps}x{label}" with the distance
label in kilometres (one decimal) from 1000 m upward, else whole metres. -/
def formatThresholdSessionTitle (reps : ℝ) (distanceMeters : ℝ) : String :=
  let safeReps : ℤ := max 1 (jround reps)
  let dist : ℝ := max 0 distanceMeters
  let distLabel :=
    if 1000 ≤ dist then decimalTenth (jround (dist / 100)) ++ "km"
    else intToStr (jround dist) ++ "m"
  "SubT " ++ intToStr safeReps ++ "x" ++ distLabel

end

/-! ### `generatePlan` (weekly plan synthesis)

The local bindings of `generatePlan` are hoisted into top-level definitions
parameterised by the profile and the correction, so that each step can be
reasoned about separately; the composition is exactly the source's. -/

structure ThresholdTemplate where
  reps : ℕ
  dist : ℝ
  rest : String

noncomputable section

/-- The fixed threshold-session rotation: 5x2km/60s, 8x1km/60s, 3x3km/90s. -/
def thresholdTemplates : List ThresholdTemplate :=
  [⟨5, 2000, "60s"⟩, ⟨8, 1000, "60s"⟩, ⟨3, 3000, "90s"⟩]

/-- `thresholdTemplates[idx % thresholdTemplates.length]`. -/
def templateFor (idx : ℕ) : ThresholdTemplate :=
  thresholdTemplates.get ⟨idx % 3, Nat.mod_lt idx (by norm_num)⟩

end

/-- Scheduled threshold days, in week order (the `Object.entries` iteration
order of the schedule). -/
def thresholdDaysOf (p : UserProfile) : List Weekday :=
  dayOrder.filter (fun w => decide (p.schedule w = DayType.THRESHOLD))

/-- Scheduled easy days, in week order. -/
def easyDaysOf (p : UserProfile) : List Weekday :=
  dayOrder.filter (fun w => decide (p.schedule w = DayType.EASY))

def easyDaysCountOf (p : UserProfile) : ℕ := (easyDaysOf p).length

/-- `Array.prototype.indexOf` wrapped in `Math.max(0, _)`: the index of the
first occurrence, or `0` when absent (`max(0, -1)`). -/
def findIdxD : List Weekday → Weekday → Option ℕ
  | [], _ => none
  | x :: xs, w => if x = w then some 0 else (findIdxD xs w).map (· + 1)

def jsIndexOfMax0 (l : List Weekday) (w : Weekday) : ℕ := (findIdxD l w).getD 0

noncomputable section

/-- `Math.max(0, Number(profile.weeklyVolume) || 0)` (NaN unrepresentable). -/
def targetKmOf (p : UserProfile) : ℝ := max 0 (↑p.weeklyVolume : ℝ)

/-- Total distance of each scheduled threshold day: warmup + cooldown + reps
x rep distance, template assigned cyclically by position. -/
def thresholdSessionDistsOf (p : UserProfile) : List ℝ :=
  (List.range (thresholdDaysOf p).length).map
    (fun idx =>
      (↑p.warmupDist : ℝ) + (↑p.cooldownDist : ℝ) +
        ((templateFor idx).reps : ℝ) * (templateFor idx).dist / 1000)

/-- `Math.max(...thresholdSessionDists)` over a possibly-empty list (`0` when
no threshold day is scheduled). -/
def maxThresholdDistOf (p : UserProfile) : ℝ :=
  match thresholdSessionDistsOf p with
  | [] => 0
  | x :: xs => xs.foldl max x

def minEasyDistOf (p : UserProfile) : ℝ := if 0 < easyDaysCountOf p then 6 else 0

/-- Long-run distance: `max(15, round(target * 0.28))`, raised above the
largest threshold day and above the easy-day floor. -/
def lrDistOf (p : UserProfile) : ℝ :=
  let base : ℝ := max 15 ((jround (targetKmOf p * 0.28) : ℤ) : ℝ)
  let withThreshold := max base (maxThresholdDistOf p + 1)
  max withThreshold (minEasyDistOf p + 1)

def thresholdTotalKmOf (p : UserProfile) : ℝ := (thresholdSessionDistsOf p).sum

def minEasyTotalKmOf (p : UserProfile) : ℝ :=
  (easyDaysCountOf p : ℝ) * minEasyDistOf p

def baseFixedKmOf (p : UserProfile) : ℝ :=
  thresholdTotalKmOf p + lrDistOf p + minEasyTotalKmOf p

def remainingKmOf (p : UserProfile) : ℝ := max 0 (targetKmOf p - baseFixedKmOf p)

def easyBonusPerDayOf (p : UserProfile) : ℝ :=
  if 0 < easyDaysCountOf p then remainingKmOf p / (easyDaysCountOf p : ℝ) else 0

/-- Per-easy-day distance before reconciliation: floor plus the evenly spread
remainder, rounded to one decimal. -/
def easyDistOf (p : UserProfile) : ℝ :=
  if 0 < easyDaysCountOf p then
    max (minEasyDistOf p) (jround1 (minEasyDistOf p + easyBonusPerDayOf p))
  else 0

/-- Corrected 60-minute threshold pace used for session durations. -/
def tPaceOf (p : UserProfile) (correctionSec : ℝ) : ℝ :=
  applyPaceCorrection (calculateThresholdPace (↑p.raceDistance) p.raceTime (some p)) correctionSec

def easyRangeOf (p : UserProfile) (correctionSec : ℝ) : EasyRange :=
  getEasyRunPaceRange p correctionSec

def easyPaceOf (p : UserProfile) (correctionSec : ℝ) : ℝ := (easyRangeOf p correctionSec).center

def easyRangeTextOf (p : UserProfile) (correctionSec : ℝ) : String :=
  secondsToTime (easyRangeOf p correctionSec).low ++ "-" ++
    secondsToTime (easyRangeOf p correctionSec).high

/-- `createThresholdSession`. -/
def createThresholdSession (p : UserProfile) (correctionSec : ℝ) (dayName : Weekday) :
    WorkoutSession ℝ :=
  let templateIdx := jsIndexOfMax0 (thresholdDaysOf p) dayName
  let tpl := templateFor templateIdx
  let paceData := getIntervalPaceRange p tpl.dist correctionSec
  let sessionDist : ℝ :=
    (↑p.warmupDist : ℝ) + (↑p.cooldownDist : ℝ) + (tpl.reps : ℝ) * tpl.dist / 1000
  { title := formatThresholdSessionTitle (tpl.reps : ℝ) tpl.dist
    type := WorkoutType.THRESHOLD
    sport := Sport.run
    useHeartRateTarget := false
    distance := jround1 sessionDist
    duration := ((jround (sessionDist * (tPaceOf p correctionSec / 60) * 1.05) : ℤ) : ℝ)
    description := "Strictly controlled sub-threshold. Stay below lactate turnpoint."
    intervals := [{ distance := tpl.dist, count := tpl.reps, pace := paceData.range,
                    rest := tpl.rest, description := paceData.effort }]
    warmup := qToDecString p.warmupDist ++ "km easy pace"
    cooldown := qToDecString p.cooldownDist ++ "km easy pace" }

/-- `createLongRun`: the easy variant, whose fields populate the returned
session (the progressive and 3x5km-block variants are carried only in the
omitted `variants` list). -/
def createLongRun (p : UserProfile) (correctionSec : ℝ) : WorkoutSession ℝ :=
  { title := "Easy Long Run"
    type := WorkoutType.LONG_RUN
    sport := Sport.run
    useHeartRateTarget := false
    distance := lrDistOf p
    duration := ((jround (lrDistOf p * (easyPaceOf p correctionSec / 60)) : ℤ) : ℝ)
    description := "Continuous easy endurance run."
    intervals := [{ distance := lrDistOf p * 1000, count := 1,
                    pace := easyRangeTextOf p correctionSec, rest := "0",
                    description := "Easy" }]
    warmup := "Direct start"
    cooldown := "Walk off" }

/-- `createEasyRun`. -/
def createEasyRun (p : UserProfile) (correctionSec : ℝ) (dist : ℝ) : WorkoutSession ℝ :=
  { title := "Easy Run"
    type := WorkoutType.EASY
    sport := Sport.run
    useHeartRateTarget := false
    distance := dist
    duration := ((jround (dist * (easyPaceOf p correctionSec / 60)) : ℤ) : ℝ)
    description := "Target Pace: " ++ secondsToTime (easyRangeOf p correctionSec).low ++ "-" ++
      secondsToTime (easyRangeOf p correctionSec).high ++ "/km"
    intervals := []
    warmup := "N/A"
    cooldown := "N/A" }

/-- Assumed bike speed per workout type (34/31/30 km/h). -/
def bikeSpeedKmh (t : WorkoutType) : ℝ :=
  if t = WorkoutType.THRESHOLD then 34
  else if t = WorkoutType.LONG_RUN then 31
  else 30

/-- `createBikeEasy`. -/
def createBikeEasy (p : UserProfile) (correctionSec : ℝ) : WorkoutSession ℝ :=
  let runEquivalentMin : ℝ := ((jround (easyDistOf p * (easyPaceOf p correctionSec / 60)) : ℤ) : ℝ)
  let distanceKm : ℝ := max 20 ((jround (runEquivalentMin / 60 * bikeSpeedKmh WorkoutType.EASY) : ℤ) : ℝ)
  { title := "Easy Ride"
    type := WorkoutType.EASY
    sport := Sport.bike
    useHeartRateTarget := true
    distance := distanceKm
    duration := runEquivalentMin
    description :=
      if 0 < p.ftp then
        "Zone 2 endurance ride (" ++ intToStr (jround ((↑p.ftp : ℝ) * 0.56)) ++ "-" ++
          intToStr (jround ((↑p.ftp : ℝ) * 0.75)) ++ "w)."
      else "Zone 2 endurance ride."
    intervals := [{ distance := distanceKm * 1000, count := 1, pace := "", rest := "0",
                    description := "Zone 2", targetZone := some "Z2" }]
    warmup := "10m easy spin"
    cooldown := "5m easy spin" }

/-- `createBikeThreshold`. -/
def createBikeThreshold (p : UserProfile) (correctionSec : ℝ) (dayName : Weekday) :
    WorkoutSession ℝ :=
  let templateIdx := jsIndexOfMax0 (thresholdDaysOf p) dayName
  let tpl := templateFor templateIdx
  let reps := tpl.reps
  let runPace := ((splitChar '-' (getIntervalPaceRange p tpl.dist correctionSec).range).headD "")
  let runRepSec : ℝ := ((timeToSeconds runPace : ℤ) : ℝ) * (tpl.dist / 1000)
  let bikeRepKm := runRepSec / 3600 * bikeSpeedKmh WorkoutType.THRESHOLD
  let bikeRepMeters : ℝ := max 1000 ((jround (bikeRepKm * 1000) : ℤ) : ℝ)
  let workMinutes : ℝ := ((jround (runRepSec * (reps : ℝ) / 60) : ℤ) : ℝ)
  let duration : ℝ := 15 + workMinutes + ((reps - 1 : ℕ) : ℝ) * 2 + 10
  let ftp : ℝ := (↑p.ftp : ℝ)
  let targetPowerLow : Option ℝ := if 0 < ftp then some ((jround (ftp * 0.92) : ℤ) : ℝ) else none
  let targetPowerHigh : Option ℝ := if 0 < ftp then some ((jround (ftp * 0.98) : ℤ) : ℝ) else none
  { title := "SubT " ++ natToStr reps ++ "x" ++ decimalTenth (jround (bikeRepMeters / 100)) ++ "km"
    type := WorkoutType.THRESHOLD
    sport := Sport.bike
    useHeartRateTarget := true
    distance := jround1 (bikeRepMeters * (reps : ℝ) / 1000)
    duration := duration
    description :=
      if 0 < ftp then
        "Subthreshold cycling. " ++ intToStr (jround (ftp * 0.92)) ++ "-" ++
          intToStr (jround (ftp * 0.98)) ++ "w (92-98% FTP)."
      else "Subthreshold cycling. Zone 3 effort."
    intervals := [{ distance := bikeRepMeters, count := reps, pace := "", rest := "120s",
                    description :=
                      if 0 < ftp then
                        intToStr (jround (ftp * 0.92)) ++ "-" ++ intToStr (jround (ftp * 0.98)) ++ "w"
                      else "Zone 3",
                    targetZone := some "Z3",
                    targetPowerLow := targetPowerLow, targetPowerHigh := targetPowerHigh }]
    warmup := "15m easy spin"
    cooldown := "10m easy spin" }

/-- `createBikeLong`: the easy-ride variant, whose fields populate the
returned session (the progressive and 3x20min-tempo variants are carried only
in the omitted `variants` list).  Its `distance` field is hard-coded `0`. -/
def createBikeLong (p : UserProfile) : WorkoutSession ℝ :=
  { title := "Easy Long Ride"
    type := WorkoutType.LONG_RUN
    sport := Sport.bike
    useHeartRateTarget := true
    distance := 0
    duration := 120
    description :=
      if 0 < p.ftp then
        "Aerobic long ride " ++ intToStr (jround ((↑p.ftp : ℝ) * 0.56)) ++ "-" ++
          intToStr (jround ((↑p.ftp : ℝ) * 0.75)) ++ "w."
      else "Aerobic long ride in Zone 2."
    intervals := [{ distance := ((jround (120 / 60 * bikeSpeedKmh WorkoutType.LONG_RUN * 1000) : ℤ) : ℝ),
                    count := 1, pace := "", rest := "0", description := "Zone 2",
                    targetZone := some "Z2" }]
    warmup := "10m easy spin"
    cooldown := "5m easy spin" }

/-- The per-day dispatch of `generatePlan`: day type from the schedule
(missing keys resolve to rest), sport from the optional per-day sport map,
easy sessions suppressed below 4 km. -/
def dayPlanFor (p : UserProfile) (correctionSec : ℝ) (dayName : Weekday) : DailyPlan :=
  let t := p.schedule dayName
  let sport := p.scheduleSport dayName
  let session : Option (WorkoutSession ℝ) :=
    if t = DayType.THRESHOLD then
      some (if sport = Sport.bike then createBikeThreshold p correctionSec dayName
            else createThresholdSession p correctionSec dayName)
    else if t = DayType.LONG_RUN then
      some (if sport = Sport.bike then createBikeLong p else createLongRun p correctionSec)
    else if t = DayType.EASY then
      (if sport = Sport.bike then some (createBikeEasy p correctionSec)
       else if 4 ≤ easyDistOf p then some (createEasyRun p correctionSec (easyDistOf p))
       else none)
    else none
  { day := dayName, type := t, session := session }

def dailyPlansOf (p : UserProfile) (correctionSec : ℝ) : List DailyPlan :=
  dayOrder.map (dayPlanFor p correctionSec)

/-- `d.session?.distance || 0` summand of the distance totals. -/
def sessionDist (d : DailyPlan) : ℝ :=
  match d.session with
  | some s => s.distance
  | none => 0

/-- `d.session?.type === WorkoutType.EASY`, the predicate selecting the
sessions rewritten by the reconciliation pass. -/
def isEasySession (d : DailyPlan) : Bool :=
  match d.session with
  | some s => decide (s.type = WorkoutType.EASY)
  | none => false

def sumDist (L : List DailyPlan) : ℝ := (L.map sessionDist).sum

def actualTotalOf (p : UserProfile) (correctionSec : ℝ) : ℝ :=
  sumDist (dailyPlansOf p correctionSec)

def perEasyDeltaOf (p : UserProfile) (correctionSec : ℝ) : ℝ :=
  (targetKmOf p - actualTotalOf p correctionSec) / (easyDaysCountOf p : ℝ)

/-- The reconciliation pass: every easy-typed session's distance is shifted by
the per-easy-day delta, floored at 4 km and rounded to one decimal. -/
def adjustSession (pd : ℝ) (d : DailyPlan) : DailyPlan :=
  match d.session with
  | some s =>
    if s.type = WorkoutType.EASY then
      { d with session := some { s with distance := max 4 (jround1 (s.distance + pd)) } }
    else d
  | none => d

def adjustedPlansOf (p : UserProfile) (correctionSec : ℝ) : List DailyPlan :=
  if 0 < easyDaysCountOf p ∧ actualTotalOf p correctionSec ≠ targetKmOf p then
    (dailyPlansOf p correctionSec).map (adjustSession (perEasyDeltaOf p correctionSec))
  else dailyPlansOf p correctionSec

/-- `generatePlan`. -/
def generatePlan (p : UserProfile) (correctionSec : ℝ) : WeeklyPlan :=
  { totalDistance := jround1 (sumDist (adjustedPlansOf p correctionSec))
    days := adjustedPlansOf p correctionSec }

end

/-! ### Workout encoder (FIT step builder and ICU workout text)

Embeds the second service file's `isPlaceholderStep`, `normalizePaceRange`,
`parsePaceRangeToSpeedRaw`, `parseDurationToFit`, `buildFitStep`,
`buildFitWorkoutSteps`, `getDynamicTitle` and `formatIcuWorkoutText` over
`WorkoutSession ℚ`.  The regex cascades are implemented as leftmost-match
scanners over character lists. -/

namespace Enc

inductive DurationType
  | distance
  | time
  | repeatUntilStepsCmplt
deriving DecidableEq

inductive TargetType
  | speed
  | heartRate
  | power
  | openTarget
deriving DecidableEq

inductive Intensity
  | active
  | rest
  | warmup
  | cooldown
  | recovery
  | interval
  | other
deriving DecidableEq

structure FitStepSpec where
  wktStepName : String
  durationType : DurationType
  durationValue : ℤ
  targetType : TargetType
  targetValue : Option ℤ := none
  customTargetValueLow : Option ℤ := none
  customTargetValueHigh : Option ℤ := none
  intensity : Option Intensity := none
deriving DecidableEq

structure DurationSpec where
  durationType : DurationType
  durationValue : ℤ
deriving DecidableEq

structure SpeedRange where
  low : ℤ
  high : ℤ
deriving DecidableEq

def PLACEHOLDER_STEP_VALUES : List String :=
  ["", "0", "n/a", "na", "direct start", "walk off", "none"]

/-- `VITE_ICU_GARMIN_SAFE_INTENSITY` is unset, and
`String(undefined ?? 'true') !== 'false'` holds, so compatibility mode is
on. -/
def ICU_GARMIN_SAFE_INTENSITY : Bool := true

/-- `isPlaceholderStep`: trimmed and lowercased membership in the
placeholder set. -/
def isPlaceholderStep (raw : String) : Bool :=
  decide (jsToLower (jsTrim raw) ∈ PLACEHOLDER_STEP_VALUES)

/-- `x || dflt` on numbers: zero (and in JavaScript `NaN`) falls back. -/
def jsOrQ (x dflt : ℚ) : ℚ := if x = 0 then dflt else x

/-- `x || dflt` on optional strings: absent or empty falls back. -/
def jsOrStr (x : Option String) (dflt : String) : String :=
  match x with
  | some s => if s = "" then dflt else s
  | none => dflt

/-- A number captured by `(\d+(?:\.\d+)?)`: value `mantissa / 10 ^ exp`, with
the raw matched characters kept for re-emission into text. -/
structure CapturedNumber where
  mantissa : ℕ
  exp : ℕ
  raw : List Char
deriving DecidableEq

def jsNumQ (c : CapturedNumber) : ℚ := (c.mantissa : ℚ) / 10 ^ c.exp

/-- Match `\s*` then the literal unit at the head of `l`; with `la` set,
additionally require the following character not to be a letter (the
`(?![a-z])` lookahead; under the `i` flag, `ci`, the class is
case-insensitive). -/
def matchUnit (unit : List Char) (la ci : Bool) (l : List Char) : Bool :=
  let l1 := l.dropWhile isJsWs
  let headMatches :=
    if ci then (l1.take unit.length).map Char.toLower = unit
    else l1.take unit.length = unit
  if headMatches ∧ unit.length ≤ l1.length then
    (if la then
       match l1.drop unit.length with
       | c :: _ => if ci then !(c.isLower || c.isUpper) else !c.isLower
       | [] => true
     else true)
  else false

/-- Try `(\d+(?:\.\d+)?)\s*unit` anchored at the head of `l`, with regex
backtracking over the optional fraction. -/
def matchNumberUnitAt (unit : List Char) (la ci : Bool) (l : List Char) :
    Option CapturedNumber :=
  match l with
  | [] => none
  | c :: _ =>
    if c.isDigit then
      let ds := l.takeWhile Char.isDigit
      let rest := l.dropWhile Char.isDigit
      let intVal := digitsToNat ds
      match rest with
      | '.' :: r2 =>
        let fds := r2.takeWhile Char.isDigit
        if fds ≠ [] ∧ matchUnit unit la ci (r2.dropWhile Char.isDigit) then
          some ⟨intVal * 10 ^ fds.length + digitsToNat fds, fds.length, ds ++ '.' :: fds⟩
        else if matchUnit unit la ci rest then some ⟨intVal, 0, ds⟩
        else none
      | _ => if matchUnit unit la ci rest then some ⟨intVal, 0, ds⟩ else none
    else none

/-- Leftmost match of `(\d+(?:\.\d+)?)\s*unit` in `l`. -/
def findNumberUnit (unit : List Char) (la ci : Bool) : List Char → Option CapturedNumber
  | [] => none
  | c :: cs =>
    match matchNumberUnitAt unit la ci (c :: cs) with
    | some r => some r
    | none => findNumberUnit unit la ci cs

/-- Remove every occurrence of `pat` (given lowercase), case-insensitively
(`String.replace(/pat/gi, '')`, left-to-right, non-overlapping). -/
def removeAllCI (pat : List Char) : List Char → List Char
  | [] => []
  | c :: cs =>
    if pat ≠ [] ∧ ((c :: cs).take pat.length).map Char.toLower = pat then
      removeAllCI pat ((c :: cs).drop pat.length)
    else c :: removeAllCI pat cs
termination_by l => l.length
decreasing_by
  · simp only [List.length_drop, List.length_cons]
    have : 0 < pat.length := List.length_pos.mpr (by tauto)
    omega
  · simp

/-- Remove the first occurrence of `pat` (`String.replace('pat', '')` with a
string pattern replaces only the first match). -/
def removeFirst (pat : List Char) : List Char → List Char
  | [] => []
  | c :: cs =>
    if pat ≠ [] ∧ (c :: cs).take pat.length = pat then (c :: cs).drop pat.length
    else c :: removeFirst pat cs

/-- `normalizePaceRange`: strip `/km` and `pace` markers, split on `-`, and
re-emit at most two bounds with a single `/km` suffix. -/
def normalizePaceRange (pace : String) : String :=
  let cleaned := jsTrim ⟨removeAllCI "pace".data (removeAllCI "/km".data pace.data)⟩
  if cleaned = "" then ""
  else
    let parts := ((splitChar '-' cleaned).map jsTrim).filter (fun s => s ≠ "")
    match parts with
    | [] => ""
    | [a] => a ++ "/km"
    | a :: b :: _ => a ++ "-" ++ b ++ "/km"

/-- `Number(s)`: `none` models `NaN`.  Whitespace-trimmed; empty input is
`0`; optional sign followed by a decimal literal (`5`, `5.`, `.5`, `5.25`).
Exponent and radix-prefixed forms are not modelled (inputs are clock
tokens). -/
def jsNumberOpt (s : String) : Option ℚ :=
  let l := ((s.data.dropWhile isJsWs).reverse.dropWhile isJsWs).reverse
  if l = [] then some 0
  else
    let signAndRest : ℚ × List Char :=
      match l with
      | '-' :: r => (-1, r)
      | '+' :: r => (1, r)
      | _ => (1, l)
    let l2 := signAndRest.2
    let ds := l2.takeWhile Char.isDigit
    let rest := l2.dropWhile Char.isDigit
    match rest with
    | [] => if ds = [] then none else some (signAndRest.1 * (digitsToNat ds : ℚ))
    | '.' :: fr =>
      let fds := fr.takeWhile Char.isDigit
      if fr.dropWhile Char.isDigit ≠ [] then none
      else if ds = [] ∧ fds = [] then none
      else some (signAndRest.1 * ((digitsToNat ds : ℚ) + (digitsToNat fds : ℚ) / 10 ^ fds.length))
    | _ => none

/-- The `toSec` helper of `parsePaceRangeToSpeedRaw`: `M:S` or `H:M:S` with
`Number`-parsed (finite) components, else `0`. -/
def toSecPR (token : String) : ℚ :=
  match (splitChar ':' token).map jsNumberOpt with
  | [some a, some b] => a * 60 + b
  | [some a, some b, some c] => a * 3600 + b * 60 + c
  | _ => 0

/-- `Math.max(...values)` over a nonempty list (callers guard emptiness). -/
def maxQ : List ℚ → ℚ
  | [] => 0
  | x :: xs => xs.foldl max x

/-- `Math.min(...values)` over a nonempty list. -/
def minQ : List ℚ → ℚ
  | [] => 0
  | x :: xs => xs.foldl min x

/-- The bound tokens examined by `parsePaceRangeToSpeedRaw`: normalized text
with the first `/km` removed, split on `-`, trimmed, blanks dropped. -/
def paceBoundParts (pace : Option String) : List String :=
  let text := normalizePaceRange (pace.getD "")
  ((splitChar '-' ⟨removeFirst "/km".data text.data⟩).map jsTrim).filter (fun s => s ≠ "")

/-- `parsePaceRangeToSpeedRaw`: positive bounds in seconds per km; the
slowest (largest seconds) bound becomes the low speed and the fastest the
high speed, each in mm/s (`Math.round(1000 / sec * 1000)`). -/
def parsePaceRangeToSpeedRaw (pace : Option String) : Option SpeedRange :=
  let text := normalizePaceRange (pace.getD "")
  if text = "" then none
  else
    let parts := paceBoundParts pace
    if parts = [] then none
    else
      let values := (parts.map toSecPR).filter (fun v => decide (0 < v))
      if values = [] then none
      else
        let slowest := maxQ values
        let fastest := minQ values
        some { low := qround (1000 / slowest * 1000), high := qround (1000 / fastest * 1000) }

/-- `parseDurationToFit`'s `km` branch: distance in centimetres when a
positive kilometre figure is found. -/
def kmCase (l : List Char) : Option DurationSpec :=
  (findNumberUnit "km".data false false l).bind fun cap =>
    let meters : ℚ := max 0 (jsNumQ cap * 1000)
    if 0 < meters then some ⟨DurationType.distance, qround (meters * 100)⟩ else none

/-- `parseDurationToFit`'s seconds branch: time in milliseconds. -/
def secCase (l : List Char) : Option DurationSpec :=
  (findNumberUnit "s".data false false l).bind fun cap =>
    let seconds : ℚ := max 0 (jsNumQ cap)
    if 0 < seconds then some ⟨DurationType.time, qround (seconds * 1000)⟩ else none

/-- `parseDurationToFit`'s minutes branch (`m` not followed by a letter):
time in milliseconds. -/
def minCase (l : List Char) : Option DurationSpec :=
  (findNumberUnit "m".data true false l).bind fun cap =>
    let seconds : ℚ := max 0 (jsNumQ cap * 60)
    if 0 < seconds then some ⟨DurationType.time, qround (seconds * 1000)⟩ else none

/-- `parseDurationToFit`: placeholder elision, then the ordered km → s → m
regex cascade (a branch whose figure is nonpositive falls through to the
next). -/
def parseDurationToFit (raw : String) : Option DurationSpec :=
  let value := jsToLower (jsTrim raw)
  if isPlaceholderStep value then none
  else
    match kmCase value.data with
    | some r => some r
    | none =>
      match secCase value.data with
      | some r => some r
      | none => minCase value.data

/-- The compatibility-mode intensity rewrite inside `buildFitStep`:
`interval`/`active` are dropped, `recovery` becomes `rest`. -/
def safeIntensity (intensity : Intensity) : Option Intensity :=
  if !ICU_GARMIN_SAFE_INTENSITY then some intensity
  else if intensity = Intensity.interval ∨ intensity = Intensity.active then none
  else if intensity = Intensity.recovery then some Intensity.rest
  else some intensity

/-- `buildFitStep`: target precedence power > heart rate > pace-derived speed
> open.  (The `Number.isFinite` guards always hold over `ℚ`.) -/
def buildFitStep (name : String) (duration : DurationSpec) (intensity : Intensity)
    (paceRange : Option String) (heartRateRange powerRange : Option (ℚ × ℚ)) : FitStepSpec :=
  match powerRange with
  | some pr =>
    { wktStepName := name, durationType := duration.durationType,
      durationValue := duration.durationValue, targetType := TargetType.power,
      customTargetValueLow := some (qround pr.1), customTargetValueHigh := some (qround pr.2),
      intensity := safeIntensity intensity }
  | none =>
    match heartRateRange with
    | some hr =>
      { wktStepName := name, durationType := duration.durationType,
        durationValue := duration.durationValue, targetType := TargetType.heartRate,
        customTargetValueLow := some (qround hr.1), customTargetValueHigh := some (qround hr.2),
        intensity := safeIntensity intensity }
    | none =>
      match parsePaceRangeToSpeedRaw paceRange with
      | none =>
        { wktStepName := name, durationType := duration.durationType,
          durationValue := duration.durationValue, targetType := TargetType.openTarget,
          intensity := safeIntensity intensity }
      | some speed =>
        { wktStepName := name, durationType := duration.durationType,
          durationValue := duration.durationValue, targetType := TargetType.speed,
          customTargetValueLow := some speed.low, customTargetValueHigh := some speed.high,
          intensity := safeIntensity intensity }

def isBike (s : WorkoutSession ℚ) : Bool := s.sport = Sport.bike

/-- `session.useHeartRateTarget && session.targetHrLow && session.targetHrHigh`
(zero heart-rate bounds are falsy). -/
def hrRangeOf (s : WorkoutSession ℚ) : Option (ℚ × ℚ) :=
  if s.useHeartRateTarget then
    match s.targetHrLow, s.targetHrHigh with
    | some l, some h => if l = 0 ∨ h = 0 then none else some (l, h)
    | _, _ => none
  else none

/-- `interval.targetPowerLow && interval.targetPowerHigh` (zero is falsy). -/
def powerRangeOf (int : Interval ℚ) : Option (ℚ × ℚ) :=
  match int.targetPowerLow, int.targetPowerHigh with
  | some l, some h => if l = 0 ∨ h = 0 then none else some (l, h)
  | _, _ => none

/-- `Math.max(1, Number(interval.count) || 1)`. -/
def jsReps (int : Interval ℚ) : ℕ := max 1 int.count

/-- The work step's duration: explicit rep duration, else rep distance, else
the whole session's duration in minutes. -/
def repDurationOf (s : WorkoutSession ℚ) (int : Interval ℚ) : DurationSpec :=
  let dsec : ℚ := int.durationSec.getD 0
  if 0 < dsec then ⟨DurationType.time, max 1000 (qround (jsOrQ dsec 60 * 1000))⟩
  else if 0 < max 0 int.distance then
    ⟨DurationType.distance, qround (max 0 int.distance * 100)⟩
  else ⟨DurationType.time, max 60000 (qround (jsOrQ s.duration 1 * 60000))⟩

def fitWorkStep (s : WorkoutSession ℚ) (int : Interval ℚ) : FitStepSpec :=
  buildFitStep (if isBike s then "Run " ++ jsOrStr int.targetZone "Z3" else "Run")
    (repDurationOf s int)
    (if s.type = WorkoutType.THRESHOLD then Intensity.interval else Intensity.active)
    (some int.pace) (hrRangeOf s) (powerRangeOf int)

def fitRecoverySteps (s : WorkoutSession ℚ) (int : Interval ℚ) : List FitStepSpec :=
  match parseDurationToFit int.rest with
  | some r => [buildFitStep (if isBike s then "Recovery Z2" else "Recovery") r
      Intensity.recovery none (hrRangeOf s) none]
  | none => []

/-- The trailing repeat pseudo-step: its duration-value field is repurposed to
store the index of the first step of the block, its target value is the
repetition count. -/
def repeatStepFor (int : Interval ℚ) (blockStart : ℕ) : FitStepSpec :=
  { wktStepName := "Repeat " ++ natToStr (jsReps int) ++ "x"
    durationType := DurationType.repeatUntilStepsCmplt
    durationValue := (blockStart : ℤ)
    targetType := TargetType.openTarget
    targetValue := some ((jsReps int : ℕ) : ℤ)
    intensity := if ICU_GARMIN_SAFE_INTENSITY then none else some Intensity.active }

/-- The steps pushed for one interval: work step, optional recovery step, and
a repeat pseudo-step when the repetition count exceeds one. -/
def blockFor (s : WorkoutSession ℚ) (int : Interval ℚ) (blockStart : ℕ) : List FitStepSpec :=
  fitWorkStep s int ::
    (fitRecoverySteps s int ++
      (if 1 < jsReps int then [repeatStepFor int blockStart] else []))

/-- The interval loop of `buildFitWorkoutSteps`, with `blockStart` tracking
`steps.length` at the start of each block. -/
def intervalBlocks (s : WorkoutSession ℚ) : ℕ → List (Interval ℚ) → List FitStepSpec
  | _, [] => []
  | n, int :: rest =>
    blockFor s int n ++ intervalBlocks s (n + (blockFor s int n).length) rest

def fitWarmupSteps (s : WorkoutSession ℚ) : List FitStepSpec :=
  match parseDurationToFit s.warmup with
  | some d => [buildFitStep (if isBike s then "Warm Up Z2" else "Warm Up") d
      Intensity.warmup none (hrRangeOf s) none]
  | none => []

def fitCooldownSteps (s : WorkoutSession ℚ) : List FitStepSpec :=
  match parseDurationToFit s.cooldown with
  | some d => [buildFitStep (if isBike s then "Cool Down Z2" else "Cool Down") d
      Intensity.cooldown none (hrRangeOf s) none]
  | none => []

def headTargetZone (s : WorkoutSession ℚ) : Option String :=
  match s.intervals with
  | int :: _ => int.targetZone
  | [] => none

/-- Case-insensitive literal prefix match (`pat` given lowercase); returns the
remainder on success. -/
def matchCIPrefixL (pat : List Char) (l : List Char) : Option (List Char) :=
  if pat.length ≤ l.length ∧ (l.take pat.length).map Char.toLower = pat then
    some (l.drop pat.length)
  else none

/-- Match `[0-9]+:[0-9]\x7b2\x7d` at the head of `l`; returns the matched
characters and the remainder. -/
def matchClock (l : List Char) : Option (List Char × List Char) :=
  let ds := l.takeWhile Char.isDigit
  if ds = [] then none
  else
    match l.dropWhile Char.isDigit with
    | ':' :: a :: b :: rest =>
      if a.isDigit ∧ b.isDigit then some (ds ++ ':' :: [a, b], rest) else none
    | _ => none

/-- The tail of the `Target Pace:` pattern after the label: `\s*`, a clock
group, an optional `-clock` group (regex backtracking drops it when `/km`
does not follow), then `/km` (case-insensitive). -/
def afterPaceLabel (r : List Char) : Option (String × Option String) :=
  let r1 := r.dropWhile isJsWs
  match matchClock r1 with
  | none => none
  | some (low, r2) =>
    let noHigh : Option (String × Option String) :=
      if (matchCIPrefixL "/km".data r2).isSome then some (⟨low⟩, none) else none
    match r2 with
    | '-' :: r3 =>
      match matchClock r3 with
      | some (high, r4) =>
        if (matchCIPrefixL "/km".data r4).isSome then some (⟨low⟩, some ⟨high⟩) else noHigh
      | none => noHigh
    | _ => noHigh

/-- Leftmost match of
`/Target Pace:\s*([0-9]+:[0-9]\x7b2\x7d)(?:-([0-9]+:[0-9]\x7b2\x7d))?\/km/i`. -/
def extractPaceScan : List Char → Option (String × Option String)
  | [] => none
  | c :: cs =>
    match (matchCIPrefixL "target pace:".data (c :: cs)).bind afterPaceLabel with
    | some r => some r
    | none => extractPaceScan cs

/-- `extractEasyPaceFromDescription` (encoder variant): the pace band embedded
in an easy session's description, re-emitted as `low-high/km` or `low/km`. -/
def extractEasyPaceFromDescription (description : String) : String :=
  let text := jsTrim description
  if text = "" then ""
  else
    match extractPaceScan text.data with
    | none => ""
    | some (low, none) => low ++ "/km"
    | some (low, some high) => low ++ "-" ++ high ++ "/km"

/-- The single fallback step emitted when a session has no intervals. -/
def fitSingleStep (s : WorkoutSession ℚ) : FitStepSpec :=
  let distMeters : ℚ := max 0 (s.distance * 1000)
  let dur : DurationSpec :=
    if isBike s = true ∨ distMeters ≤ 0 then
      ⟨DurationType.time, max 60000 (qround (jsOrQ s.duration 1 * 60000))⟩
    else if 0 < distMeters then ⟨DurationType.distance, qround (distMeters * 100)⟩
    else ⟨DurationType.time, max 60000 (qround (jsOrQ s.duration 1 * 60000))⟩
  buildFitStep (if isBike s then "Ride " ++ jsOrStr (headTargetZone s) "Z2" else "Run") dur
    Intensity.active (some (extractEasyPaceFromDescription s.description)) (hrRangeOf s) none

/-- `buildFitWorkoutSteps`: warmup step, the interval blocks (or the single
fallback step), cooldown step. -/
def buildFitWorkoutSteps (s : WorkoutSession ℚ) : List FitStepSpec :=
  let wu := fitWarmupSteps s
  let main :=
    if s.intervals = [] then [fitSingleStep s]
    else intervalBlocks s wu.length s.intervals
  wu ++ main ++ fitCooldownSteps s

/-- `getDynamicTitle`: for threshold sessions the title is recomputed from the
first interval's repetition count and duration/distance. -/
def getDynamicTitle (s : WorkoutSession ℚ) : String :=
  match s.intervals with
  | [] => s.title
  | first :: _ =>
    if s.type ≠ WorkoutType.THRESHOLD then s.title
    else
      let reps := jsReps first
      let durationSec : ℚ := first.durationSec.getD 0
      if 0 < durationSec then
        "SubT " ++ natToStr reps ++ "x" ++ intToStr (max 1 (qround (durationSec / 60))) ++ ":00"
      else
        let dist : ℚ := max 0 first.distance
        let distLabel :=
          if 1000 ≤ dist then decimalTenth (qround (dist / 100)) ++ "km"
          else intToStr (qround dist) ++ "m"
        "SubT " ++ natToStr reps ++ "x" ++ distLabel

/-- `normalizeEasyStep` (encoder variant): re-emit the first recognised unit
fragment as an explicit easy-run step. -/
def normalizeEasyStep (raw : String) : String :=
  let value := jsTrim raw
  if value = "" then "10m easy run"
  else
    match findNumberUnit "km".data false true value.data with
    | some cap => (⟨cap.raw⟩ : String) ++ "km easy run"
    | none =>
      match findNumberUnit "s".data false true value.data with
      | some cap => (⟨cap.raw⟩ : String) ++ "s easy run"
      | none =>
        match findNumberUnit "m".data true true value.data with
        | some cap => (⟨cap.raw⟩ : String) ++ "m easy run"
        | none => value ++ " easy run"

/-- `/^(\d+(?:\.\d+)?)$/`: the whole string is a plain decimal figure. -/
def isNumericOnly (l : List Char) : Bool :=
  let ds := l.takeWhile Char.isDigit
  if ds = [] then false
  else
    match l.dropWhile Char.isDigit with
    | [] => true
    | '.' :: fr => fr ≠ [] ∧ fr.all Char.isDigit
    | _ => false

/-- `normalizeRecoveryStep` (encoder variant). -/
def normalizeRecoveryStep (raw : String) : String :=
  let value := jsTrim raw
  if value = "" ∨ value = "0" then ""
  else
    match findNumberUnit "km".data false true value.data with
    | some cap => (⟨cap.raw⟩ : String) ++ "km recovery run"
    | none =>
      match findNumberUnit "s".data false true value.data with
      | some cap => (⟨cap.raw⟩ : String) ++ "s recovery"
      | none =>
        match findNumberUnit "m".data true true value.data with
        | some cap => (⟨cap.raw⟩ : String) ++ "m recovery"
        | none =>
          if isNumericOnly value.data then value ++ "s recovery"
          else value ++ " recovery"

/-- `kmTokenFromMeters`: metres rendered as kilometres with up to three
decimals. -/
def kmTokenFromMeters (meters : ℚ) : String :=
  thousandthsStr (qround (max 0 meters)) ++ "km"

/-- The heart-rate token of the ICU text. -/
def hrTokenOf (s : WorkoutSession ℚ) : String :=
  if s.useHeartRateTarget then
    match s.targetHrLow, s.targetHrHigh with
    | some l, some h =>
      if l = 0 ∨ h = 0 then "Z2 HR"
      else "Z2 HR (" ++ qToDecString l ++ "-" ++ qToDecString h ++ " bpm)"
    | _, _ => "Z2 HR"
  else ""

/-- One ICU chunk per interval: `Nx[work / recovery]` for repeats, otherwise
`work; recovery` or a bare work step. -/
def icuIntervalChunk (s : WorkoutSession ℚ) (int : Interval ℚ) : String :=
  let reps := jsReps int
  let durationSec : ℚ := int.durationSec.getD 0
  let distStr := if 0 < int.distance then kmTokenFromMeters int.distance else ""
  let pace := normalizePaceRange int.pace
  let lead := if 0 < durationSec then intToStr (qround (durationSec / 60)) ++ "m" else distStr
  let runStep :=
    if isBike s then
      jsTrim (distStr ++ " " ++
        (match powerRangeOf int with
         | some pr => "@ " ++ qToDecString pr.1 ++ "-" ++ qToDecString pr.2 ++ "w"
         | none => "@ " ++ jsOrStr int.targetZone "Z2") ++ " ride")
    else if s.useHeartRateTarget then
      jsTrim (lead ++ " @ " ++ hrTokenOf s ++ " run")
    else
      jsTrim (lead ++ (if pace ≠ "" then " @ " ++ pace else "") ++ " run")
  let recovery := normalizeRecoveryStep int.rest
  if 1 < reps then
    if recovery ≠ "" then natToStr reps ++ "x[" ++ runStep ++ " / " ++ recovery ++ "]"
    else natToStr reps ++ "x[" ++ runStep ++ "]"
  else if recovery ≠ "" then runStep ++ "; " ++ recovery
  else runStep

/-- The ICU main-set chunk for a session with no intervals. -/
def icuFallbackChunk (s : WorkoutSession ℚ) : String :=
  if isBike s then
    intToStr (qround s.duration) ++ "m @ " ++
      (match s.intervals with
       | int :: _ =>
         (match powerRangeOf int with
          | some pr => qToDecString pr.1 ++ "-" ++ qToDecString pr.2 ++ "w"
          | none => jsOrStr int.targetZone "Z2")
       | [] => "Z2") ++ " ride"
  else if s.useHeartRateTarget then
    qToDecString s.distance ++ "km @ " ++ hrTokenOf s ++ " run"
  else
    let easyPace := extractEasyPaceFromDescription s.description
    qToDecString s.distance ++ "km" ++ (if easyPace ≠ "" then " @ " ++ easyPace else "") ++ " run"

/-- The warmup chunk is emitted only for non-placeholder, nonempty warmup
text. -/
def icuWarmupChunks (s : WorkoutSession ℚ) : List String :=
  if isPlaceholderStep s.warmup = false ∧ s.warmup ≠ "" then
    ["Wu " ++ normalizeEasyStep s.warmup]
  else []

def icuCooldownChunks (s : WorkoutSession ℚ) : List String :=
  if isPlaceholderStep s.cooldown = false ∧ s.cooldown ≠ "" then
    ["Cd " ++ normalizeEasyStep s.cooldown]
  else []

def icuMainChunks (s : WorkoutSession ℚ) : List String :=
  if s.intervals = [] then [icuFallbackChunk s]
  else s.intervals.map (icuIntervalChunk s)

/-- `formatIcuWorkoutText` (encoder variant): title, blank line, chunks joined
with `"; "`. -/
def formatIcuWorkoutText (s : WorkoutSession ℚ) : String :=
  getDynamicTitle s ++ "\n\n" ++
    joinSep "; " (icuWarmupChunks s ++ icuMainChunks s ++ icuCooldownChunks s)

end Enc

/-! ### Concrete instances used by witnesses and counterexamples -/

/-- One easy day, tiny 2 km weekly target: the reconciliation's 4 km floor
binds. -/
def budgetFloorProfile : UserProfile :=
  { raceDistance := 0
    raceTime := ""
    weeklyVolume := 2
    schedule := fun w => match w with
      | Weekday.monday => DayType.EASY
      | _ => DayType.REST
    warmupDist := 0
    cooldownDist := 0 }

/-- One easy day, 21 km weekly target: the floor does not bind and the target
is met exactly. -/
def budgetOkProfile : UserProfile :=
  { raceDistance := 0
    raceTime := ""
    weeklyVolume := 21
    schedule := fun w => match w with
      | Weekday.monday => DayType.EASY
      | _ => DayType.REST
    warmupDist := 0
    cooldownDist := 0 }

/-- Two benchmark results forming a valid two-point critical-speed model. -/
def twoBenchProfile : UserProfile :=
  { raceDistance := 5000
    raceTime := "19:07"
    weeklyVolume := 0
    schedule := fun _ => DayType.REST
    warmupDist := 0
    cooldownDist := 0
    raceDistance2 := some 10000
    raceTime2 := some "40:00" }

/-- A bike long-run day (hard-coded zero ride distance) next to a run
threshold day. -/
def bikeLongProfile : UserProfile :=
  { raceDistance := 5000
    raceTime := "19:07"
    weeklyVolume := 50
    schedule := fun w => match w with
      | Weekday.monday => DayType.LONG_RUN
      | Weekday.tuesday => DayType.THRESHOLD
      | _ => DayType.REST
    scheduleSport := fun w => match w with
      | Weekday.monday => Sport.bike
      | _ => Sport.run
    warmupDist := 2
    cooldownDist := 1 }

/-- An all-run schedule with a long run and two threshold days. -/
def runPlanProfile : UserProfile :=
  { raceDistance := 5000
    raceTime := "19:07"
    weeklyVolume := 60
    schedule := fun w => match w with
      | Weekday.monday => DayType.LONG_RUN
      | Weekday.tuesday => DayType.THRESHOLD
      | Weekday.thursday => DayType.THRESHOLD
      | _ => DayType.REST
    warmupDist := 2
    cooldownDist := 1 }

/-- An empty race time: every race-equivalent anchor and the threshold pace
itself are undeterminable. -/
def noTimeProfile : UserProfile :=
  { raceDistance := 5000
    raceTime := ""
    weeklyVolume := 0
    schedule := fun _ => DayType.REST
    warmupDist := 0
    cooldownDist := 0 }

/-- A race time that parses negative: the race-equivalent anchors are all
negative while the bisection threshold estimate stays positive. -/
def negTimeProfile : UserProfile :=
  { raceDistance := 5000
    raceTime := "-5:00"
    weeklyVolume := 0
    schedule := fun _ => DayType.REST
    warmupDist := 0
    cooldownDist := 0 }

/-- The interval of the specimen threshold session: 5 x 2000 m with 60 s
rest. -/
def specimenInterval : Interval ℚ :=
  { distance := 2000, count := 5, pace := "", rest := "60s", description := "Subthreshold Pace" }

/-- A threshold session with placeholder warmup/cooldown and a single
5 x 2000 m interval. -/
def specimenSession : WorkoutSession ℚ :=
  { title := "SubT 5x2km"
    type := WorkoutType.THRESHOLD
    sport := Sport.run
    useHeartRateTarget := false
    distance := 13
    duration := 55
    description := "Strictly controlled sub-threshold. Stay below lactate turnpoint."
    intervals := [specimenInterval]
    warmup := "N/A"
    cooldown := "Walk off" }

/-- A session whose warmup is exactly `"N/A"` and whose cooldown is
`"none"`. -/
def placeholderSession : WorkoutSession ℚ :=
  { title := "Easy Run"
    type := WorkoutType.EASY
    sport := Sport.run
    useHeartRateTarget := false
    distance := 8
    duration := 45
    description := ""
    intervals := [{ distance := 8000, count := 1, pace := "", rest := "0", description := "Easy" }]
    warmup := "N/A"
    cooldown := "none" }

/-! ## Theorems -/

/-- C10: for every temperature, humidity and wind input,
`getWeatherPaceDeltaSeconds` returns `0` whenever its `basePaceSec` argument
is nonpositive (the non-finite disjunct of the guard is unrepresentable over
`ℝ`): the weather correction is disabled for a profile with no derivable
base pace, regardless of the weather values. -/
theorem weather_delta_zero_of_no_base (basePaceSec temperatureC humidityPct windKmh : ℝ)
    (h : basePaceSec ≤ 0) :
    getWeatherPaceDeltaSeconds basePaceSec temperatureC humidityPct windKmh = 0 := by
  rw [getWeatherPaceDeltaSeconds, if_pos h]

/-- Witness for C10: a zero base pace with extreme heat, humidity and wind
still yields a zero correction. -/
theorem weather_delta_zero_of_no_base_witness :
    (0 : ℝ) ≤ 0 ∧ getWeatherPaceDeltaSeconds 0 45 95 80 = 0 :=
  ⟨le_refl 0, weather_delta_zero_of_no_base 0 45 95 80 (le_refl 0)⟩

/-- C9: `secondsToTime` applied to the positive finite input `59.7` yields
`"0:60"`: the seconds component is rounded independently of the minutes, so
the result is not a normalised clock string. -/
theorem secondsToTime_unnormalised : secondsToTime (59.7 : ℝ) = "0:60" ∧ (0 : ℝ) < 59.7 := by
  constructor
  · have h36 : ⌊(59.7 : ℝ) / 3600⌋ = 0 := by
      rw [Int.floor_eq_iff]
      norm_num
    have ht36 : jtrunc ((59.7 : ℝ) / 3600) = 0 := by
      rw [jtrunc, if_pos (by norm_num : (0 : ℝ) ≤ 59.7 / 3600)]
      exact h36
    have hm36 : jsMod (59.7 : ℝ) 3600 = 59.7 := by
      rw [jsMod, ht36]
      norm_num
    have h60 : ⌊(59.7 : ℝ) / 60⌋ = 0 := by
      rw [Int.floor_eq_iff]
      norm_num
    have ht60 : jtrunc ((59.7 : ℝ) / 60) = 0 := by
      rw [jtrunc, if_pos (by norm_num : (0 : ℝ) ≤ 59.7 / 60)]
      exact h60
    have hm60 : jsMod (59.7 : ℝ) 60 = 59.7 := by
      rw [jsMod, ht60]
      norm_num
    have hr : jround (59.7 : ℝ) = 60 := jround_eq _ 60 (by norm_num) (by norm_num)
    rw [secondsToTime, if_neg (by norm_num : ¬(59.7 : ℝ) ≤ 0)]
    simp only [hm36, hm60, h36, h60, hr]
    norm_num
    decide
  · norm_num

/-- C8: for a fixed benchmark with positive distance and positive parsed
time, the predicted pace `calculatePaceForDistance` is non-decreasing in the
target distance beyond the benchmark distance (fatigue exponent
`1.06 > 1`). -/
theorem calculatePaceForDistance_monotone (d : ℝ) (t : String) (target1 target2 : ℝ)
    (hd : 0 < d) (ht : 0 < ((timeToSeconds t : ℤ) : ℝ))
    (h1 : d ≤ target1) (h12 : target1 < target2) :
    calculatePaceForDistance d t target1 ≤ calculatePaceForDistance d t target2 := by
  set tI : ℝ := ((timeToSeconds t : ℤ) : ℝ) with htI
  have hx : 0 < target1 := lt_of_lt_of_le hd h1
  have hy : 0 < target2 := hx.trans h12
  have hp1 : predictRaceTime d t target1 = tI * (target1 / d) ^ (1.06 : ℝ) := by
    have hcond : ¬(tI = 0 ∨ d = 0 ∨ target1 = 0) := by
      push_neg
      exact ⟨ne_of_gt ht, ne_of_gt hd, ne_of_gt hx⟩
    simp only [predictRaceTime]
    rw [if_neg hcond]
  have hp2 : predictRaceTime d t target2 = tI * (target2 / d) ^ (1.06 : ℝ) := by
    have hcond : ¬(tI = 0 ∨ d = 0 ∨ target2 = 0) := by
      push_neg
      exact ⟨ne_of_gt ht, ne_of_gt hd, ne_of_gt hy⟩
    simp only [predictRaceTime]
    rw [if_neg hcond]
  have hpos1 : 0 < predictRaceTime d t target1 := by
    rw [hp1]
    exact mul_pos ht (Real.rpow_pos_of_pos (div_pos hx hd) _)
  have hpos2 : 0 < predictRaceTime d t target2 := by
    rw [hp2]
    exact mul_pos ht (Real.rpow_pos_of_pos (div_pos hy hd) _)
  have hc1 : calculatePaceForDistance d t target1 =
      tI * (target1 / d) ^ (1.06 : ℝ) / (target1 / 1000) := by
    simp only [calculatePaceForDistance]
    rw [if_neg (ne_of_gt hpos1), hp1]
  have hc2 : calculatePaceForDistance d t target2 =
      tI * (target2 / d) ^ (1.06 : ℝ) / (target2 / 1000) := by
    simp only [calculatePaceForDistance]
    rw [if_neg (ne_of_gt hpos2), hp2]
  rw [hc1, hc2, div_le_div_iff₀ (by positivity) (by positivity)]
  have hdiv : target1 / d ≤ target2 / d := by gcongr
  have key : (target1 / d) ^ (0.06 : ℝ) ≤ (target2 / d) ^ (0.06 : ℝ) :=
    Real.rpow_le_rpow (by positivity) hdiv (by norm_num)
  have e1 : (target1 / d) ^ (1.06 : ℝ) = (target1 / d) ^ (0.06 : ℝ) * (target1 / d) := by
    rw [show (1.06 : ℝ) = 0.06 + 1 by norm_num, Real.rpow_add (div_pos hx hd), Real.rpow_one]
  have e2 : (target2 / d) ^ (1.06 : ℝ) = (target2 / d) ^ (0.06 : ℝ) * (target2 / d) := by
    rw [show (1.06 : ℝ) = 0.06 + 1 by norm_num, Real.rpow_add (div_pos hy hd), Real.rpow_one]
  calc tI * (target1 / d) ^ (1.06 : ℝ) * (target2 / 1000)
      = (target1 / d) ^ (0.06 : ℝ) * (tI * (target1 * target2 / (1000 * d))) := by
        rw [e1]
        ring
    _ ≤ (target2 / d) ^ (0.06 : ℝ) * (tI * (target1 * target2 / (1000 * d))) := by
        apply mul_le_mul_of_nonneg_right key
        exact mul_nonneg ht.le (by positivity)
    _ = tI * (target2 / d) ^ (1.06 : ℝ) * (target1 / 1000) := by
        rw [e2]
        ring

/-- C2: when the second benchmark result is present and forms a valid
two-point model (`d2 > d1 > 0` and `t2 > t1 > 0` after time parsing),
`calculateThresholdPace` with the profile argument equals the critical-speed
pace `1000 * (t2 - t1) / (d2 - d1)` multiplied by the conservatism factor
`1.01`, and coincides with the critical-speed estimate (the single-benchmark
bisection estimate is not used). -/
theorem thresholdPace_prefers_criticalSpeed (p : UserProfile) (d2 : ℚ)
    (h2 : p.raceDistance2 = some d2)
    (hd1 : (0 : ℝ) < (↑p.raceDistance : ℝ))
    (hdd : (↑p.raceDistance : ℝ) < (↑d2 : ℝ))
    (ht1 : (0 : ℝ) < ((timeToSeconds p.raceTime : ℤ) : ℝ))
    (htt : ((timeToSeconds p.raceTime : ℤ) : ℝ) < ((timeToSeconds (p.raceTime2.getD "") : ℤ) : ℝ)) :
    calculateThresholdPace (↑p.raceDistance) p.raceTime (some p) =
        1000 * (((timeToSeconds (p.raceTime2.getD "") : ℤ) : ℝ) -
          ((timeToSeconds p.raceTime : ℤ) : ℝ)) / ((↑d2 : ℝ) - (↑p.raceDistance : ℝ)) * 1.01 ∧
      calculateThresholdPace (↑p.raceDistance) p.raceTime (some p) =
        estimate60MinThresholdFromCriticalSpeed p := by
  set D1 : ℝ := (↑p.raceDistance : ℝ) with hD1
  set D2 : ℝ := (↑d2 : ℝ) with hD2
  set T1 : ℝ := ((timeToSeconds p.raceTime : ℤ) : ℝ) with hT1
  set T2 : ℝ := ((timeToSeconds (p.raceTime2.getD "") : ℤ) : ℝ) with hT2
  have hcs : estimate60MinThresholdFromCriticalSpeed p =
      1000 / ((D2 - D1) / (T2 - T1)) * 1.01 := by
    simp only [estimate60MinThresholdFromCriticalSpeed, h2]
    rw [if_neg (by push_neg; constructor <;> linarith)]
    rw [if_neg (by push_neg; constructor <;> linarith)]
    rw [if_neg (by push_neg; exact ⟨htt, hdd⟩)]
    rw [if_neg (not_le.mpr (div_pos (by linarith) (by linarith)))]
  have hpos : 0 < estimate60MinThresholdFromCriticalSpeed p := by
    rw [hcs]
    exact mul_pos (div_pos (by norm_num) (div_pos (by linarith) (by linarith))) (by norm_num)
  have hmain : calculateThresholdPace D1 p.raceTime (some p) =
      estimate60MinThresholdFromCriticalSpeed p := by
    show get60MinThresholdPace p = estimate60MinThresholdFromCriticalSpeed p
    simp only [get60MinThresholdPace]
    rw [if_pos hpos]
  refine ⟨?_, hmain⟩
  rw [hmain, hcs, div_div_eq_mul_div]

/-- Witness for C2: benchmarks 5000 m in 19:07 and 10000 m in 40:00; the
returned threshold pace is `1000 * 1253 / 5000 * 1.01` and equals the
critical-speed estimate. -/
theorem thresholdPace_prefers_criticalSpeed_witness :
    calculateThresholdPace ((5000 : ℚ) : ℝ) "19:07" (some twoBenchProfile) =
        1000 * ((2400 : ℝ) - 1147) / ((10000 : ℝ) - 5000) * 1.01 ∧
      calculateThresholdPace ((5000 : ℚ) : ℝ) "19:07" (some twoBenchProfile) =
        estimate60MinThresholdFromCriticalSpeed twoBenchProfile := by
  have ht1 : timeToSeconds twoBenchProfile.raceTime = (1147 : ℤ) := by decide
  have ht2 : timeToSeconds (twoBenchProfile.raceTime2.getD "") = (2400 : ℤ) := by decide
  have h := thresholdPace_prefers_criticalSpeed twoBenchProfile 10000 rfl
    (by norm_num [twoBenchProfile])
    (by norm_num [twoBenchProfile])
    (by rw [ht1]; norm_num)
    (by rw [ht1, ht2]; norm_num)
  rw [ht1, ht2] at h
  exact h

theorem predictRaceTime_neg_of_neg_time (d : ℝ) (t : String) (x : ℝ)
    (ht : ((timeToSeconds t : ℤ) : ℝ) < 0) (hd : 0 < d) (hx : 0 < x) :
    predictRaceTime d t x < 0 := by
  have hcond : ¬(((timeToSeconds t : ℤ) : ℝ) = 0 ∨ d = 0 ∨ x = 0) := by
    push_neg
    exact ⟨ne_of_lt ht, ne_of_gt hd, ne_of_gt hx⟩
  simp only [predictRaceTime]
  rw [if_neg hcond]
  exact mul_neg_of_neg_of_pos ht (Real.rpow_pos_of_pos (div_pos hx hd) _)

theorem calculatePace_neg_of_neg_time (d : ℝ) (t : String) (x : ℝ)
    (ht : ((timeToSeconds t : ℤ) : ℝ) < 0) (hd : 0 < d) (hx : 0 < x) :
    calculatePaceForDistance d t x < 0 := by
  have hp := predictRaceTime_neg_of_neg_time d t x ht hd hx
  simp only [calculatePaceForDistance]
  rw [if_neg (ne_of_lt hp)]
  exact div_neg_of_neg_of_pos hp (by positivity)

theorem thresholdSearchLoop_pos (d : ℝ) (t : String)
    (hneg : ∀ x : ℝ, 0 < x → predictRaceTime d t x < 0) :
    ∀ (n : ℕ) (low high : ℝ), 0 < low → 0 < high →
      0 < (thresholdSearchLoop d t n (low, high)).1 ∧
        0 < (thresholdSearchLoop d t n (low, high)).2 := by
  intro n
  induction n with
  | zero =>
    intro low high hl hh
    exact ⟨hl, hh⟩
  | succ n ih =>
    intro low high hl hh
    have hmid : 0 < (low + high) / 2 := by linarith
    have hneg1 := hneg _ hmid
    simp only [thresholdSearchLoop]
    rw [if_neg (ne_of_lt hneg1), if_neg (by push_neg; linarith)]
    exact ih _ _ hmid hh

theorem estimate_single_pos_of_neg_time (d : ℝ) (t : String)
    (ht : ((timeToSeconds t : ℤ) : ℝ) < 0) (hd : 0 < d) :
    0 < estimate60MinThresholdFromSingleResult d t := by
  have hneg : ∀ x : ℝ, 0 < x → predictRaceTime d t x < 0 := fun x hx =>
    predictRaceTime_neg_of_neg_time d t x ht hd hx
  simp only [estimate60MinThresholdFromSingleResult]
  rw [if_neg (by push_neg; exact ⟨ne_of_lt ht, ne_of_gt hd⟩)]
  rw [if_neg (not_le.mpr (lt_of_lt_of_le (by linarith)
    (neg_le_abs (((timeToSeconds t : ℤ) : ℝ) - 3600))))]
  have hlp := thresholdSearchLoop_pos d t hneg 30 6000 30000 (by norm_num) (by norm_num)
  have hd60 : 0 < ((thresholdSearchLoop d t 30 (6000, 30000)).1 +
      (thresholdSearchLoop d t 30 (6000, 30000)).2) / 2 := by
    linarith [hlp.1, hlp.2]
  rw [if_neg (not_le.mpr hd60)]
  positivity

/-- C7 (amended): when the 60-minute threshold pace is positive but every
race-equivalent anchor pace is undeterminable (nonpositive),
`getIntervalPaceRange` falls back to the raw threshold pace with effort
label "Subthreshold Pace" and the returned range is
`[pace, pace + 10 s]` after applying the environmental correction.  (As
originally stated the claim fails: when the anchors are zero because the
benchmark is missing, the threshold pace is also zero and the function
returns `("0:00-0:00", "NSA Singles")` instead — see the counterexample.) -/
theorem intervalPaceRange_subthreshold_fallback (p : UserProfile) (dist corr : ℝ)
    (hth : 0 < get60MinThresholdPace p)
    (h15 : (getRaceEquivalentPaces p).p15k ≤ 0)
    (hHalf : (getRaceEquivalentPaces p).pHalf ≤ 0)
    (h30 : (getRaceEquivalentPaces p).p30k ≤ 0)
    (hM : (getRaceEquivalentPaces p).pMarathon ≤ 0) :
    getIntervalPaceRange p dist corr =
      { range := secondsToTime (applyPaceCorrection (get60MinThresholdPace p) corr) ++ "-" ++
          secondsToTime (applyPaceCorrection (get60MinThresholdPace p) corr + 10)
        effort := "Subthreshold Pace" } := by
  have hsp : getSinglesTargetPace p dist (get60MinThresholdPace p) corr =
      { paceSec := applyPaceCorrection (get60MinThresholdPace p) corr
        effort := "Subthreshold Pace" } := by
    simp only [getSinglesTargetPace]
    rw [if_neg (not_le.mpr hth)]
    rw [if_neg (fun hcon => absurd hcon.2 (not_lt.mpr h15)),
      if_neg (fun hcon => absurd hcon.2 (not_lt.mpr h15)),
      if_neg (fun hcon => absurd hcon.2 (not_lt.mpr h15)),
      if_neg (fun hcon => absurd hcon.2 (not_lt.mpr h15)),
      if_neg (fun hcon => absurd hcon.2 (not_lt.mpr hHalf)),
      if_neg (fun hcon => absurd hcon.2 (not_lt.mpr h30)),
      if_neg (not_lt.mpr hM)]
  have hpc : 0 < applyPaceCorrection (get60MinThresholdPace p) corr := by
    rw [applyPaceCorrection, if_neg (not_le.mpr hth)]
    exact lt_of_lt_of_le one_pos (le_max_left _ _)
  simp only [getIntervalPaceRange, hsp]
  rw [if_neg (ne_of_gt hpc)]

/-- Counterexample for C7 as stated: with an empty race time every anchor is
zero, but `getIntervalPaceRange` returns `("0:00-0:00", "NSA Singles")`, not
the "Subthreshold Pace" fallback band. -/
theorem intervalPaceRange_fallback_counterexample :
    (getRaceEquivalentPaces noTimeProfile).p15k = 0 ∧
      getIntervalPaceRange noTimeProfile 400 0 =
        { range := "0:00-0:00", effort := "NSA Singles" } ∧
      (getIntervalPaceRange noTimeProfile 400 0).effort ≠ "Subthreshold Pace" := by
  have htime : timeToSeconds noTimeProfile.raceTime = 0 := by decide
  have hpred : ∀ x : ℝ,
      predictRaceTime (↑noTimeProfile.raceDistance) noTimeProfile.raceTime x = 0 := by
    intro x
    simp only [predictRaceTime]
    rw [if_pos]
    left
    rw [htime]
    norm_num
  have h15 : (getRaceEquivalentPaces noTimeProfile).p15k = 0 := by
    simp only [getRaceEquivalentPaces, calculatePaceForDistance]
    rw [hpred 15000, if_pos rfl]
  have hsingle : estimate60MinThresholdFromSingleResult (↑noTimeProfile.raceDistance)
      noTimeProfile.raceTime = 0 := by
    simp only [estimate60MinThresholdFromSingleResult]
    rw [if_pos]
    left
    rw [htime]
    norm_num
  have hcs : estimate60MinThresholdFromCriticalSpeed noTimeProfile = 0 := rfl
  have hth : get60MinThresholdPace noTimeProfile = 0 := by
    simp only [get60MinThresholdPace]
    rw [hcs, if_neg (lt_irrefl 0), hsingle]
  have hsp : getSinglesTargetPace noTimeProfile 400 (get60MinThresholdPace noTimeProfile) 0 =
      { paceSec := 0, effort := "NSA Singles" } := by
    simp only [getSinglesTargetPace]
    rw [hth, if_pos (le_refl (0 : ℝ))]
  have hmain : getIntervalPaceRange noTimeProfile 400 0 =
      { range := "0:00-0:00", effort := "NSA Singles" } := by
    simp only [getIntervalPaceRange, hsp]
    simp
  refine ⟨h15, hmain, ?_⟩
  rw [hmain]
  decide

/-- Witness for C7 (amended): a profile whose race time parses negative has
negative anchors but a positive bisection threshold estimate, and the
fallback band is returned. -/
theorem intervalPaceRange_subthreshold_fallback_witness :
    0 < get60MinThresholdPace negTimeProfile ∧
      (getRaceEquivalentPaces negTimeProfile).p15k ≤ 0 ∧
      (getRaceEquivalentPaces negTimeProfile).pHalf ≤ 0 ∧
      (getRaceEquivalentPaces negTimeProfile).p30k ≤ 0 ∧
      (getRaceEquivalentPaces negTimeProfile).pMarathon ≤ 0 ∧
      getIntervalPaceRange negTimeProfile 400 0 =
        { range := secondsToTime (applyPaceCorrection (get60MinThresholdPace negTimeProfile) 0) ++
            "-" ++
            secondsToTime (applyPaceCorrection (get60MinThresholdPace negTimeProfile) 0 + 10)
          effort := "Subthreshold Pace" } := by
  have ht : ((timeToSeconds negTimeProfile.raceTime : ℤ) : ℝ) < 0 := by
    rw [show timeToSeconds negTimeProfile.raceTime = (-300 : ℤ) from by decide]
    norm_num
  have hd : (0 : ℝ) < (↑negTimeProfile.raceDistance : ℝ) := by norm_num [negTimeProfile]
  have hcs : estimate60MinThresholdFromCriticalSpeed negTimeProfile = 0 := rfl
  have hth : 0 < get60MinThresholdPace negTimeProfile := by
    simp only [get60MinThresholdPace]
    rw [hcs, if_neg (lt_irrefl 0)]
    exact estimate_single_pos_of_neg_time _ _ ht hd
  have h15 : (getRaceEquivalentPaces negTimeProfile).p15k ≤ 0 := by
    simp only [getRaceEquivalentPaces]
    exact (calculatePace_neg_of_neg_time _ _ 15000 ht hd (by norm_num)).le
  have hHalf : (getRaceEquivalentPaces negTimeProfile).pHalf ≤ 0 := by
    simp only [getRaceEquivalentPaces]
    exact (calculatePace_neg_of_neg_time _ _ 21097 ht hd (by norm_num)).le
  have h30 : (getRaceEquivalentPaces negTimeProfile).p30k ≤ 0 := by
    simp only [getRaceEquivalentPaces]
    exact (calculatePace_neg_of_neg_time _ _ 30000 ht hd (by norm_num)).le
  have hM : (getRaceEquivalentPaces negTimeProfile).pMarathon ≤ 0 := by
    simp only [getRaceEquivalentPaces]
    exact (calculatePace_neg_of_neg_time _ _ 42195 ht hd (by norm_num)).le
  exact ⟨hth, h15, hHalf, h30, hM,
    intervalPaceRange_subthreshold_fallback negTimeProfile 400 0 hth h15 hHalf h30 hM⟩

theorem mem_dayOrder (w : Weekday) : w ∈ dayOrder := by
  cases w <;> simp [dayOrder]

theorem findIdxD_of_mem : ∀ (l : List Weekday) (w : Weekday), w ∈ l →
    ∃ i, findIdxD l w = some i ∧ i < l.length := by
  intro l
  induction l with
  | nil =>
    intro w hw
    cases hw
  | cons x xs ih =>
    intro w hw
    by_cases hx : x = w
    · exact ⟨0, by simp [findIdxD, hx], by simp⟩
    · have hw2 : w ∈ xs := by
        rcases List.mem_cons.mp hw with rfl | h2
        · exact absurd rfl hx
        · exact h2
      obtain ⟨i, hi, hl⟩ := ih w hw2
      refine ⟨i + 1, by simp [findIdxD, hx, hi], ?_⟩
      simp only [List.length_cons]
      omega

theorem foldl_max_init_le (l : List ℝ) : ∀ a : ℝ, a ≤ l.foldl max a := by
  induction l with
  | nil =>
    intro a
    simp
  | cons b bs ih =>
    intro a
    simp only [List.foldl_cons]
    exact le_trans (le_max_left a b) (ih (max a b))

theorem mem_le_foldl_max (l : List ℝ) : ∀ (a x : ℝ), x ∈ l → x ≤ l.foldl max a := by
  induction l with
  | nil =>
    intro a x hx
    cases hx
  | cons b bs ih =>
    intro a x hx
    simp only [List.foldl_cons]
    rcases List.mem_cons.mp hx with rfl | hx2
    · exact le_trans (le_max_right a x) (foldl_max_init_le bs (max a x))
    · exact ih (max a b) x hx2

theorem le_maxThresholdDist (p : UserProfile) (x : ℝ) (hx : x ∈ thresholdSessionDistsOf p) :
    x ≤ maxThresholdDistOf p := by
  rw [maxThresholdDistOf]
  rcases hl : thresholdSessionDistsOf p with _ | ⟨a, as⟩
  · rw [hl] at hx
    cases hx
  · rw [hl] at hx
    rcases List.mem_cons.mp hx with rfl | hx2
    · exact foldl_max_init_le as x
    · exact mem_le_foldl_max as a x hx2

/-- The distance of any run threshold session is dominated by the long-run
distance: the long-run floor sits strictly above the largest threshold day,
and one-decimal rounding moves a distance by at most `1/20`. -/
theorem createThresholdSession_dist_le (p : UserProfile) (corr : ℝ) (w : Weekday)
    (hw : p.schedule w = DayType.THRESHOLD) :
    (createThresholdSession p corr w).distance ≤ lrDistOf p := by
  have hmem : w ∈ thresholdDaysOf p := by
    rw [thresholdDaysOf]
    exact List.mem_filter.mpr ⟨mem_dayOrder w, by simp [hw]⟩
  obtain ⟨i, hfind, hlen⟩ := findIdxD_of_mem (thresholdDaysOf p) w hmem
  have hidx : jsIndexOfMax0 (thresholdDaysOf p) w = i := by
    rw [jsIndexOfMax0, hfind]
    rfl
  have hdist : (createThresholdSession p corr w).distance =
      jround1 ((↑p.warmupDist : ℝ) + (↑p.cooldownDist : ℝ) +
        ((templateFor i).reps : ℝ) * (templateFor i).dist / 1000) := by
    simp only [createThresholdSession, hidx]
  have hmem2 : (↑p.warmupDist : ℝ) + (↑p.cooldownDist : ℝ) +
      ((templateFor i).reps : ℝ) * (templateFor i).dist / 1000 ∈ thresholdSessionDistsOf p := by
    rw [thresholdSessionDistsOf]
    exact List.mem_map.mpr ⟨i, List.mem_range.mpr hlen, rfl⟩
  have hmax := le_maxThresholdDist p _ hmem2
  have hlr : maxThresholdDistOf p + 1 ≤ lrDistOf p := by
    rw [lrDistOf]
    exact le_trans (le_max_right _ _) (le_max_left _ _)
  have hround := jround1_le_add ((↑p.warmupDist : ℝ) + (↑p.cooldownDist : ℝ) +
    ((templateFor i).reps : ℝ) * (templateFor i).dist / 1000)
  rw [hdist]
  linarith

/-- The reconciliation pass only rewrites easy-typed sessions; any other
session it returns is already present in the unadjusted plan. -/
theorem adjustSession_session_of_ne_easy (pd : ℝ) (d : DailyPlan) (s : WorkoutSession ℝ)
    (h : (adjustSession pd d).session = some s) (hty : s.type ≠ WorkoutType.EASY) :
    d.session = some s := by
  rcases hd : d.session with _ | s0
  · simp [adjustSession, hd] at h
  · simp only [adjustSession, hd] at h
    by_cases he : s0.type = WorkoutType.EASY
    · rw [if_pos he] at h
      simp only [Option.some.injEq] at h
      subst h
      simp at hty
      exact absurd he hty
    · rw [if_neg he] at h
      rw [hd] at h
      exact h

theorem exists_weekday_of_mem_daily (p : UserProfile) (corr : ℝ) (d : DailyPlan)
    (hd : d ∈ dailyPlansOf p corr) : ∃ w, d = dayPlanFor p corr w := by
  rw [dailyPlansOf] at hd
  obtain ⟨w, _, hw⟩ := List.mem_map.mp hd
  exact ⟨w, hw.symm⟩

/-- On a run day, a long-run-typed session can only be the long-run
constructor. -/
theorem dayPlan_session_longRun (p : UserProfile) (corr : ℝ) (w : Weekday)
    (hrun : p.scheduleSport w = Sport.run) (s : WorkoutSession ℝ)
    (hs : (dayPlanFor p corr w).session = some s) (hty : s.type = WorkoutType.LONG_RUN) :
    s = createLongRun p corr := by
  cases hsch : p.schedule w with
  | REST => simp [dayPlanFor, hsch] at hs
  | EASY =>
    simp only [dayPlanFor, hsch, hrun] at hs
    simp at hs
    obtain ⟨-, hs2⟩ := hs
    rw [← hs2] at hty
    simp [createEasyRun] at hty
  | THRESHOLD =>
    simp only [dayPlanFor, hsch, hrun] at hs
    simp at hs
    rw [← hs] at hty
    simp [createThresholdSession] at hty
  | LONG_RUN =>
    simp only [dayPlanFor, hsch, hrun] at hs
    simp at hs
    exact hs.symm

/-- On a run day, a threshold-typed session can only be the threshold
constructor, and the day is scheduled as a threshold day. -/
theorem dayPlan_session_threshold (p : UserProfile) (corr : ℝ) (w : Weekday)
    (hrun : p.scheduleSport w = Sport.run) (s : WorkoutSession ℝ)
    (hs : (dayPlanFor p corr w).session = some s) (hty : s.type = WorkoutType.THRESHOLD) :
    s = createThresholdSession p corr w ∧ p.schedule w = DayType.THRESHOLD := by
  cases hsch : p.schedule w with
  | REST => simp [dayPlanFor, hsch] at hs
  | EASY =>
    simp only [dayPlanFor, hsch, hrun] at hs
    simp at hs
    obtain ⟨-, hs2⟩ := hs
    rw [← hs2] at hty
    simp [createEasyRun] at hty
  | THRESHOLD =>
    simp only [dayPlanFor, hsch, hrun] at hs
    simp at hs
    exact ⟨hs.symm, rfl⟩
  | LONG_RUN =>
    simp only [dayPlanFor, hsch, hrun] at hs
    simp at hs
    rw [← hs] at hty
    simp [createLongRun] at hty

/-- C3 (amended): in every plan whose scheduled days all carry the sport
`run`, the long-run session's distance is at least the distance of every
threshold session.  (As originally stated the claim fails for mixed-sport
schedules: a bike long-ride session has hard-coded distance `0` — see the
counterexample.) -/
theorem longRun_dominance (p : UserProfile) (corr : ℝ)
    (hrun : ∀ w, p.scheduleSport w = Sport.run) :
    ∀ dl ∈ (generatePlan p corr).days, ∀ dt ∈ (generatePlan p corr).days,
      ∀ sl st : WorkoutSession ℝ,
        dl.session = some sl → sl.type = WorkoutType.LONG_RUN →
        dt.session = some st → st.type = WorkoutType.THRESHOLD →
        st.distance ≤ sl.distance := by
  intro dl hdl dt hdt sl st hsl hslty hst hstty
  have key : ∀ d ∈ (generatePlan p corr).days, ∀ s : WorkoutSession ℝ, d.session = some s →
      s.type ≠ WorkoutType.EASY → ∃ w, (dayPlanFor p corr w).session = some s := by
    intro d hd s hs hne
    have hd2 : d ∈ adjustedPlansOf p corr := hd
    rw [adjustedPlansOf] at hd2
    by_cases hcond : 0 < easyDaysCountOf p ∧ actualTotalOf p corr ≠ targetKmOf p
    · rw [if_pos hcond] at hd2
      obtain ⟨d0, hd0mem, hd0⟩ := List.mem_map.mp hd2
      have hs0 : d0.session = some s :=
        adjustSession_session_of_ne_easy _ d0 s (by rw [hd0]; exact hs) hne
      obtain ⟨w, hw⟩ := exists_weekday_of_mem_daily p corr d0 hd0mem
      exact ⟨w, by rw [← hw]; exact hs0⟩
    · rw [if_neg hcond] at hd2
      obtain ⟨w, hw⟩ := exists_weekday_of_mem_daily p corr d hd2
      exact ⟨w, by rw [← hw]; exact hs⟩
  obtain ⟨wl, hwl⟩ := key dl hdl sl hsl (by rw [hslty]; simp)
  obtain ⟨wt, hwt⟩ := key dt hdt st hst (by rw [hstty]; simp)
  have hsl2 : sl = createLongRun p corr :=
    dayPlan_session_longRun p corr wl (hrun wl) sl hwl hslty
  obtain ⟨hst2, hsch⟩ := dayPlan_session_threshold p corr wt (hrun wt) st hwt hstty
  rw [hsl2, hst2]
  show (createThresholdSession p corr wt).distance ≤ lrDistOf p
  exact createThresholdSession_dist_le p corr wt hsch

/-- Counterexample for C3 as stated: with a bike long-run day (hard-coded
ride distance `0`) next to a run threshold day (13 km), the threshold
session is longer than the long-run session. -/
theorem longRun_dominance_counterexample :
    ∃ dl ∈ (generatePlan bikeLongProfile 0).days, ∃ dt ∈ (generatePlan bikeLongProfile 0).days,
      ∃ sl st : WorkoutSession ℝ, dl.session = some sl ∧ sl.type = WorkoutType.LONG_RUN ∧
        dt.session = some st ∧ st.type = WorkoutType.THRESHOLD ∧ ¬ st.distance ≤ sl.distance := by
  have hcount : easyDaysCountOf bikeLongProfile = 0 := by decide
  have hdays : (generatePlan bikeLongProfile 0).days = dailyPlansOf bikeLongProfile 0 := by
    show adjustedPlansOf bikeLongProfile 0 = dailyPlansOf bikeLongProfile 0
    rw [adjustedPlansOf, if_neg]
    rintro ⟨h, -⟩
    rw [hcount] at h
    exact lt_irrefl 0 h
  have hmonMem : dayPlanFor bikeLongProfile 0 Weekday.monday ∈ (generatePlan bikeLongProfile 0).days := by
    rw [hdays, dailyPlansOf]
    exact List.mem_map.mpr ⟨Weekday.monday, mem_dayOrder _, rfl⟩
  have htueMem : dayPlanFor bikeLongProfile 0 Weekday.tuesday ∈ (generatePlan bikeLongProfile 0).days := by
    rw [hdays, dailyPlansOf]
    exact List.mem_map.mpr ⟨Weekday.tuesday, mem_dayOrder _, rfl⟩
  have hmon : (dayPlanFor bikeLongProfile 0 Weekday.monday).session =
      some (createBikeLong bikeLongProfile) := by
    simp [dayPlanFor, bikeLongProfile]
  have htue : (dayPlanFor bikeLongProfile 0 Weekday.tuesday).session =
      some (createThresholdSession bikeLongProfile 0 Weekday.tuesday) := by
    simp [dayPlanFor, bikeLongProfile]
  have hidx : jsIndexOfMax0 (thresholdDaysOf bikeLongProfile) Weekday.tuesday = 0 := by decide
  have htpl : templateFor 0 = ⟨5, 2000, "60s"⟩ := rfl
  have h13 : (createThresholdSession bikeLongProfile 0 Weekday.tuesday).distance = 13 := by
    simp only [createThresholdSession, hidx, htpl]
    have hwu : ((bikeLongProfile.warmupDist : ℚ) : ℝ) = 2 := by norm_num [bikeLongProfile]
    have hcd : ((bikeLongProfile.cooldownDist : ℚ) : ℝ) = 1 := by norm_num [bikeLongProfile]
    rw [hwu, hcd]
    norm_num
    rw [jround1, jround_eq _ 130 (by norm_num) (by norm_num)]
    norm_num
  refine ⟨dayPlanFor bikeLongProfile 0 Weekday.monday, hmonMem,
    dayPlanFor bikeLongProfile 0 Weekday.tuesday, htueMem,
    createBikeLong bikeLongProfile, createThresholdSession bikeLongProfile 0 Weekday.tuesday,
    hmon, rfl, htue, rfl, ?_⟩
  rw [h13]
  show ¬ (13 : ℝ) ≤ (createBikeLong bikeLongProfile).distance
  have h0 : (createBikeLong bikeLongProfile).distance = 0 := rfl
  rw [h0]
  norm_num

/-- Witness for C3 (amended): an all-run schedule with one long-run day and
two threshold days satisfies long-run dominance. -/
theorem longRun_dominance_witness :
    (∀ w, runPlanProfile.scheduleSport w = Sport.run) ∧
      (∀ dl ∈ (generatePlan runPlanProfile 0).days, ∀ dt ∈ (generatePlan runPlanProfile 0).days,
        ∀ sl st : WorkoutSession ℝ,
          dl.session = some sl → sl.type = WorkoutType.LONG_RUN →
          dt.session = some st → st.type = WorkoutType.THRESHOLD →
          st.distance ≤ sl.distance) :=
  ⟨fun _ => rfl, longRun_dominance runPlanProfile 0 (fun _ => rfl)⟩

theorem sumDist_cons (d : DailyPlan) (L : List DailyPlan) :
    sumDist (d :: L) = sessionDist d + sumDist L := by
  simp [sumDist]

theorem adjust_eq_of_not_easy (pd : ℝ) (d : DailyPlan) (h : isEasySession d = false) :
    adjustSession pd d = d := by
  rcases hd : d.session with _ | s0
  · simp [adjustSession, hd]
  · have hne : ¬s0.type = WorkoutType.EASY := by
      simpa [isEasySession, hd] using h
    simp [adjustSession, hd, hne]

theorem jround1_four : jround1 (4 : ℝ) = 4 := by
  rw [jround1, jround_eq _ 40 (by norm_num) (by norm_num)]
  norm_num

/-- Summing after the reconciliation pass: the adjusted total differs from
`(old total) + (easy count) * delta` by at most `1/20` per easy session
(one-decimal rounding error), provided the 4 km floor never binds. -/
theorem adjust_sum_bound (pd : ℝ) : ∀ L : List DailyPlan,
    (∀ d ∈ L, ∀ s : WorkoutSession ℝ, d.session = some s → s.type = WorkoutType.EASY →
      (4 : ℝ) ≤ s.distance + pd) →
    |sumDist (L.map (adjustSession pd)) - (sumDist L + (L.countP isEasySession : ℝ) * pd)| ≤
      (L.countP isEasySession : ℝ) / 20 := by
  intro L
  induction L with
  | nil =>
    intro _
    simp [sumDist]
  | cons d L ih =>
    intro h
    have hL := ih (fun d2 hd2 s hs hty => h d2 (List.mem_cons_of_mem d hd2) s hs hty)
    by_cases he : isEasySession d = true
    · rcases hd : d.session with _ | s
      · simp [isEasySession, hd] at he
      · have hety : s.type = WorkoutType.EASY := by
          simpa [isEasySession, hd] using he
        have hfl : (4 : ℝ) ≤ s.distance + pd := h d (List.mem_cons_self d L) s hd hety
        have hmax : max (4 : ℝ) (jround1 (s.distance + pd)) = jround1 (s.distance + pd) := by
          apply max_eq_right
          calc (4 : ℝ) = jround1 4 := jround1_four.symm
            _ ≤ jround1 (s.distance + pd) := jround1_mono hfl
        have hadj : sessionDist (adjustSession pd d) = jround1 (s.distance + pd) := by
          have hrw : adjustSession pd d =
              { d with session := some { s with distance := max 4 (jround1 (s.distance + pd)) } } := by
            simp [adjustSession, hd, hety]
          rw [hrw]
          simp only [sessionDist]
          exact hmax
        have hsd : sessionDist d = s.distance := by simp [sessionDist, hd]
        have hcnt : ((d :: L).countP isEasySession : ℝ) = (L.countP isEasySession : ℝ) + 1 := by
          simp [List.countP_cons, he]
        have hround := abs_jround1_sub (s.distance + pd)
        rw [List.map_cons, sumDist_cons, sumDist_cons, hadj, hsd, hcnt]
        have heq : jround1 (s.distance + pd) + sumDist (L.map (adjustSession pd)) -
            (s.distance + sumDist L + ((L.countP isEasySession : ℝ) + 1) * pd) =
            (jround1 (s.distance + pd) - (s.distance + pd)) +
              (sumDist (L.map (adjustSession pd)) -
                (sumDist L + (L.countP isEasySession : ℝ) * pd)) := by
          ring
        rw [heq]
        calc |(jround1 (s.distance + pd) - (s.distance + pd)) +
              (sumDist (L.map (adjustSession pd)) -
                (sumDist L + (L.countP isEasySession : ℝ) * pd))| ≤
            |jround1 (s.distance + pd) - (s.distance + pd)| +
              |sumDist (L.map (adjustSession pd)) -
                (sumDist L + (L.countP isEasySession : ℝ) * pd)| := abs_add _ _
          _ ≤ ((L.countP isEasySession : ℝ) + 1) / 20 := by linarith
    · have hne : isEasySession d = false := by simpa using he
      have hadj := adjust_eq_of_not_easy pd d hne
      have hcnt : ((d :: L).countP isEasySession : ℝ) = (L.countP isEasySession : ℝ) := by
        simp [List.countP_cons, hne]
      rw [List.map_cons, sumDist_cons, sumDist_cons, hadj, hcnt]
      have heq : sessionDist d + sumDist (L.map (adjustSession pd)) -
          (sessionDist d + sumDist L + (L.countP isEasySession : ℝ) * pd) =
          sumDist (L.map (adjustSession pd)) -
            (sumDist L + (L.countP isEasySession : ℝ) * pd) := by
        ring
      rw [heq]
      exact hL

/-- With at least one scheduled easy day, every weekday's generated session
is easy-typed exactly when the schedule marks the day easy. -/
theorem isEasy_dayPlan (p : UserProfile) (corr : ℝ) (hn : 0 < easyDaysCountOf p) (w : Weekday) :
    isEasySession (dayPlanFor p corr w) = decide (p.schedule w = DayType.EASY) := by
  have h6 : (4 : ℝ) ≤ easyDistOf p := by
    rw [easyDistOf, if_pos hn, minEasyDistOf, if_pos hn]
    exact le_trans (by norm_num) (le_max_left _ _)
  cases hsch : p.schedule w with
  | REST => simp [dayPlanFor, hsch, isEasySession]
  | EASY =>
    cases hsp : p.scheduleSport w with
    | run => simp [dayPlanFor, hsch, hsp, isEasySession, h6, createEasyRun]
    | bike => simp [dayPlanFor, hsch, hsp, isEasySession, createBikeEasy]
  | THRESHOLD =>
    cases hsp : p.scheduleSport w with
    | run => simp [dayPlanFor, hsch, hsp, isEasySession, createThresholdSession]
    | bike => simp [dayPlanFor, hsch, hsp, isEasySession, createBikeThreshold]
  | LONG_RUN =>
    cases hsp : p.scheduleSport w with
    | run => simp [dayPlanFor, hsch, hsp, isEasySession, createLongRun]
    | bike => simp [dayPlanFor, hsch, hsp, isEasySession, createBikeLong]

theorem countP_easy_eq (p : UserProfile) (corr : ℝ) (hn : 0 < easyDaysCountOf p) :
    (dailyPlansOf p corr).countP isEasySession = easyDaysCountOf p := by
  have key : ∀ ws : List Weekday, ((ws.map (dayPlanFor p corr)).countP isEasySession) =
      (ws.filter (fun w => decide (p.schedule w = DayType.EASY))).length := by
    intro ws
    induction ws with
    | nil => simp
    | cons w ws ih =>
      simp only [List.map_cons, List.countP_cons, List.filter_cons]
      rw [isEasy_dayPlan p corr hn w]
      by_cases hw : p.schedule w = DayType.EASY
      · simp [hw, ih]
      · simp [hw, ih]
  rw [dailyPlansOf, key dayOrder, easyDaysCountOf, easyDaysOf]

/-- C1 (amended): for every profile with a nonnegative weekly volume and at
least one scheduled easy day, provided the reconciliation's 4 km floor does
not bind (each easy session's pre-floor reconciled distance is at least
4 km), the realized `totalDistance` of `generatePlan` differs from
`profile.weeklyVolume` by at most `0.1` per easy day.  (As originally stated
the claim fails when the floor binds — see the counterexample.) -/
theorem budget_conservation (p : UserProfile) (corr : ℝ)
    (hv : 0 ≤ p.weeklyVolume) (hn : 0 < easyDaysCountOf p)
    (hfloor : ∀ d ∈ dailyPlansOf p corr, ∀ s : WorkoutSession ℝ, d.session = some s →
      s.type = WorkoutType.EASY → (4 : ℝ) ≤ s.distance + perEasyDeltaOf p corr) :
    |(generatePlan p corr).totalDistance - (↑p.weeklyVolume : ℝ)| ≤
      0.1 * (easyDaysCountOf p : ℝ) := by
  have htarget : targetKmOf p = (↑p.weeklyVolume : ℝ) := by
    rw [targetKmOf]
    exact max_eq_right (by exact_mod_cast hv)
  have hn1 : (1 : ℝ) ≤ (easyDaysCountOf p : ℝ) := by exact_mod_cast hn
  by_cases heq : actualTotalOf p corr = targetKmOf p
  · have hadj : adjustedPlansOf p corr = dailyPlansOf p corr := by
      rw [adjustedPlansOf, if_neg]
      rintro ⟨-, hne⟩
      exact hne heq
    have htot : (generatePlan p corr).totalDistance = jround1 (actualTotalOf p corr) := by
      show jround1 (sumDist (adjustedPlansOf p corr)) = _
      rw [hadj]
      rfl
    rw [htot, heq, htarget]
    have hb := abs_jround1_sub (↑p.weeklyVolume : ℝ)
    linarith
  · have hadj : adjustedPlansOf p corr =
        (dailyPlansOf p corr).map (adjustSession (perEasyDeltaOf p corr)) := by
      rw [adjustedPlansOf, if_pos ⟨hn, heq⟩]
    have hcnt := countP_easy_eq p corr hn
    have hsum := adjust_sum_bound (perEasyDeltaOf p corr) (dailyPlansOf p corr) hfloor
    rw [hcnt] at hsum
    have hne0 : (easyDaysCountOf p : ℝ) ≠ 0 := by
      exact ne_of_gt (lt_of_lt_of_le one_pos hn1)
    have hpd : (easyDaysCountOf p : ℝ) * perEasyDeltaOf p corr =
        targetKmOf p - actualTotalOf p corr := by
      rw [perEasyDeltaOf, mul_comm, div_mul_cancel₀ _ hne0]
    have htot : (generatePlan p corr).totalDistance =
        jround1 (sumDist ((dailyPlansOf p corr).map (adjustSession (perEasyDeltaOf p corr)))) := by
      show jround1 (sumDist (adjustedPlansOf p corr)) = _
      rw [hadj]
    have hjr := abs_jround1_sub
      (sumDist ((dailyPlansOf p corr).map (adjustSession (perEasyDeltaOf p corr))))
    have hsum2 : |sumDist ((dailyPlansOf p corr).map (adjustSession (perEasyDeltaOf p corr))) -
        targetKmOf p| ≤ (easyDaysCountOf p : ℝ) / 20 := by
      have hrw : sumDist ((dailyPlansOf p corr).map (adjustSession (perEasyDeltaOf p corr))) -
          targetKmOf p =
          sumDist ((dailyPlansOf p corr).map (adjustSession (perEasyDeltaOf p corr))) -
            (sumDist (dailyPlansOf p corr) +
              (easyDaysCountOf p : ℝ) * perEasyDeltaOf p corr) := by
        rw [hpd]
        show _ = _ - (actualTotalOf p corr + (targetKmOf p - actualTotalOf p corr))
        ring
      rw [hrw]
      exact hsum
    rw [htot, ← htarget]
    have habs := abs_add
      (jround1 (sumDist ((dailyPlansOf p corr).map (adjustSession (perEasyDeltaOf p corr)))) -
        sumDist ((dailyPlansOf p corr).map (adjustSession (perEasyDeltaOf p corr))))
      (sumDist ((dailyPlansOf p corr).map (adjustSession (perEasyDeltaOf p corr))) - targetKmOf p)
    have heq2 : jround1 (sumDist ((dailyPlansOf p corr).map (adjustSession (perEasyDeltaOf p corr)))) -
        targetKmOf p =
        (jround1 (sumDist ((dailyPlansOf p corr).map (adjustSession (perEasyDeltaOf p corr)))) -
          sumDist ((dailyPlansOf p corr).map (adjustSession (perEasyDeltaOf p corr)))) +
          (sumDist ((dailyPlansOf p corr).map (adjustSession (perEasyDeltaOf p corr))) -
            targetKmOf p) := by
      ring
    rw [heq2]
    linarith

theorem budgetFloor_easyDist : easyDistOf budgetFloorProfile = 6 := by
  have h1 : easyDaysCountOf budgetFloorProfile = 1 := by decide
  have hthr : thresholdDaysOf budgetFloorProfile = [] := by decide
  have hdists : thresholdSessionDistsOf budgetFloorProfile = [] := by
    rw [thresholdSessionDistsOf, hthr]
    simp
  have hmaxT : maxThresholdDistOf budgetFloorProfile = 0 := by
    rw [maxThresholdDistOf, hdists]
  have htarget : targetKmOf budgetFloorProfile = 2 := by
    rw [targetKmOf, show ((budgetFloorProfile.weeklyVolume : ℚ) : ℝ) = 2 by
      norm_num [budgetFloorProfile]]
    exact max_eq_right (by norm_num)
  have hminE : minEasyDistOf budgetFloorProfile = 6 := by
    rw [minEasyDistOf, if_pos (by decide : 0 < easyDaysCountOf budgetFloorProfile)]
  have hlr : lrDistOf budgetFloorProfile = 15 := by
    simp only [lrDistOf, htarget, hmaxT, hminE]
    rw [show (2 : ℝ) * 0.28 = 0.56 by norm_num,
      jround_eq 0.56 1 (by norm_num) (by norm_num)]
    rw [max_eq_left (by norm_num), max_eq_left (by norm_num), max_eq_left (by norm_num)]
  have hTT : thresholdTotalKmOf budgetFloorProfile = 0 := by
    rw [thresholdTotalKmOf, hdists]
    simp
  have hMET : minEasyTotalKmOf budgetFloorProfile = 6 := by
    rw [minEasyTotalKmOf, h1, hminE]
    norm_num
  have hBF : baseFixedKmOf budgetFloorProfile = 21 := by
    rw [baseFixedKmOf, hTT, hlr, hMET]
    norm_num
  have hrem : remainingKmOf budgetFloorProfile = 0 := by
    rw [remainingKmOf, htarget, hBF]
    exact max_eq_left (by norm_num)
  have hbonus : easyBonusPerDayOf budgetFloorProfile = 0 := by
    rw [easyBonusPerDayOf, if_pos (by decide : 0 < easyDaysCountOf budgetFloorProfile), hrem]
    norm_num
  rw [easyDistOf, if_pos (by decide : 0 < easyDaysCountOf budgetFloorProfile), hminE, hbonus]
  rw [show (6 : ℝ) + 0 = 6 by norm_num, jround1,
    jround_eq ((6 : ℝ) * 10) 60 (by norm_num) (by norm_num)]
  norm_num

theorem budgetFloor_plans : dailyPlansOf budgetFloorProfile 0 =
    [{ day := Weekday.monday, type := DayType.EASY,
       session := some (createEasyRun budgetFloorProfile 0 (easyDistOf budgetFloorProfile)) },
     { day := Weekday.tuesday, type := DayType.REST, session := none },
     { day := Weekday.wednesday, type := DayType.REST, session := none },
     { day := Weekday.thursday, type := DayType.REST, session := none },
     { day := Weekday.friday, type := DayType.REST, session := none },
     { day := Weekday.saturday, type := DayType.REST, session := none },
     { day := Weekday.sunday, type := DayType.REST, session := none }] := by
  have h4 : (4 : ℝ) ≤ easyDistOf budgetFloorProfile := by
    rw [budgetFloor_easyDist]
    norm_num
  have hsm : budgetFloorProfile.schedule Weekday.monday = DayType.EASY := rfl
  have hstu : budgetFloorProfile.schedule Weekday.tuesday = DayType.REST := rfl
  have hsw : budgetFloorProfile.schedule Weekday.wednesday = DayType.REST := rfl
  have hsth : budgetFloorProfile.schedule Weekday.thursday = DayType.REST := rfl
  have hsf : budgetFloorProfile.schedule Weekday.friday = DayType.REST := rfl
  have hssa : budgetFloorProfile.schedule Weekday.saturday = DayType.REST := rfl
  have hssu : budgetFloorProfile.schedule Weekday.sunday = DayType.REST := rfl
  have hsp : ∀ w, budgetFloorProfile.scheduleSport w = Sport.run := fun _ => rfl
  simp [dailyPlansOf, dayOrder, dayPlanFor, hsm, hstu, hsw, hsth, hsf, hssa, hssu, hsp, h4]

theorem budgetFloor_actual : actualTotalOf budgetFloorProfile 0 = 6 := by
  rw [actualTotalOf, budgetFloor_plans]
  simp [sumDist, sessionDist, createEasyRun, budgetFloor_easyDist]

/-- Counterexample for C1 as stated: one scheduled easy day and a 2 km
weekly target; the long-run floor inflates the fixed budget, reconciliation
hits the 4 km easy floor, and the realized total is 4 km — off target by
2 km, far beyond the `0.1` band. -/
theorem budget_conservation_counterexample :
    0 ≤ budgetFloorProfile.weeklyVolume ∧ 0 < easyDaysCountOf budgetFloorProfile ∧
      ¬(|(generatePlan budgetFloorProfile 0).totalDistance -
          (↑budgetFloorProfile.weeklyVolume : ℝ)| ≤ 0.1 * (easyDaysCountOf budgetFloorProfile : ℝ)) := by
  have htarget : targetKmOf budgetFloorProfile = 2 := by
    rw [targetKmOf, show ((budgetFloorProfile.weeklyVolume : ℚ) : ℝ) = 2 by
      norm_num [budgetFloorProfile]]
    exact max_eq_right (by norm_num)
  have hneq : actualTotalOf budgetFloorProfile 0 ≠ targetKmOf budgetFloorProfile := by
    rw [budgetFloor_actual, htarget]
    norm_num
  have h1 : easyDaysCountOf budgetFloorProfile = 1 := by decide
  have hpd : perEasyDeltaOf budgetFloorProfile 0 = -4 := by
    rw [perEasyDeltaOf, htarget, budgetFloor_actual, h1]
    norm_num
  have hadjlist : adjustedPlansOf budgetFloorProfile 0 =
      (dailyPlansOf budgetFloorProfile 0).map (adjustSession (-4)) := by
    rw [adjustedPlansOf,
      if_pos ⟨(by decide : 0 < easyDaysCountOf budgetFloorProfile), hneq⟩, hpd]
  have hadjmon : adjustSession (-4)
      ({ day := Weekday.monday, type := DayType.EASY,
         session := some (createEasyRun budgetFloorProfile 0 (easyDistOf budgetFloorProfile)) } :
        DailyPlan) =
      { day := Weekday.monday, type := DayType.EASY,
        session := some { createEasyRun budgetFloorProfile 0 (easyDistOf budgetFloorProfile) with
          distance := max 4 (jround1 (easyDistOf budgetFloorProfile + -4)) } } := by
    simp [adjustSession, createEasyRun]
  have hdist4 : max (4 : ℝ) (jround1 (easyDistOf budgetFloorProfile + -4)) = 4 := by
    rw [budgetFloor_easyDist, show (6 : ℝ) + -4 = 2 by norm_num, jround1,
      jround_eq ((2 : ℝ) * 10) 20 (by norm_num) (by norm_num)]
    rw [show ((20 : ℤ) : ℝ) / 10 = 2 by norm_num]
    exact max_eq_left (by norm_num)
  have hsum : sumDist (adjustedPlansOf budgetFloorProfile 0) = 4 := by
    rw [hadjlist, budgetFloor_plans]
    simp only [List.map_cons, List.map_nil, hadjmon]
    simp [sumDist, sessionDist, adjustSession, hdist4]
  have htotal : (generatePlan budgetFloorProfile 0).totalDistance = 4 := by
    show jround1 (sumDist (adjustedPlansOf budgetFloorProfile 0)) = 4
    rw [hsum, jround1, jround_eq ((4 : ℝ) * 10) 40 (by norm_num) (by norm_num)]
    norm_num
  refine ⟨by norm_num [budgetFloorProfile], by decide, ?_⟩
  rw [htotal, h1, show ((budgetFloorProfile.weeklyVolume : ℚ) : ℝ) = 2 by
    norm_num [budgetFloorProfile]]
  norm_num

theorem budgetOk_easyDist : easyDistOf budgetOkProfile = 6 := by
  have hthr : thresholdDaysOf budgetOkProfile = [] := by decide
  have hdists : thresholdSessionDistsOf budgetOkProfile = [] := by
    rw [thresholdSessionDistsOf, hthr]
    simp
  have hmaxT : maxThresholdDistOf budgetOkProfile = 0 := by
    rw [maxThresholdDistOf, hdists]
  have htarget : targetKmOf budgetOkProfile = 21 := by
    rw [targetKmOf, show ((budgetOkProfile.weeklyVolume : ℚ) : ℝ) = 21 by
      norm_num [budgetOkProfile]]
    exact max_eq_right (by norm_num)
  have hminE : minEasyDistOf budgetOkProfile = 6 := by
    rw [minEasyDistOf, if_pos (by decide : 0 < easyDaysCountOf budgetOkProfile)]
  have hlr : lrDistOf budgetOkProfile = 15 := by
    simp only [lrDistOf, htarget, hmaxT, hminE]
    rw [show (21 : ℝ) * 0.28 = 5.88 by norm_num,
      jround_eq (5.88 : ℝ) 6 (by norm_num) (by norm_num)]
    rw [max_eq_left (by norm_num), max_eq_left (by norm_num), max_eq_left (by norm_num)]
  have hTT : thresholdTotalKmOf budgetOkProfile = 0 := by
    rw [thresholdTotalKmOf, hdists]
    simp
  have hMET : minEasyTotalKmOf budgetOkProfile = 6 := by
    rw [minEasyTotalKmOf, show easyDaysCountOf budgetOkProfile = 1 from by decide, hminE]
    norm_num
  have hBF : baseFixedKmOf budgetOkProfile = 21 := by
    rw [baseFixedKmOf, hTT, hlr, hMET]
    norm_num
  have hrem : remainingKmOf budgetOkProfile = 0 := by
    rw [remainingKmOf, htarget, hBF]
    exact max_eq_left (by norm_num)
  have hbonus : easyBonusPerDayOf budgetOkProfile = 0 := by
    rw [easyBonusPerDayOf, if_pos (by decide : 0 < easyDaysCountOf budgetOkProfile), hrem]
    norm_num
  rw [easyDistOf, if_pos (by decide : 0 < easyDaysCountOf budgetOkProfile), hminE, hbonus]
  rw [show (6 : ℝ) + 0 = 6 by norm_num, jround1,
    jround_eq ((6 : ℝ) * 10) 60 (by norm_num) (by norm_num)]
  norm_num

theorem budgetOk_plans : dailyPlansOf budgetOkProfile 0 =
    [{ day := Weekday.monday, type := DayType.EASY,
       session := some (createEasyRun budgetOkProfile 0 (easyDistOf budgetOkProfile)) },
     { day := Weekday.tuesday, type := DayType.REST, session := none },
     { day := Weekday.wednesday, type := DayType.REST, session := none },
     { day := Weekday.thursday, type := DayType.REST, session := none },
     { day := Weekday.friday, type := DayType.REST, session := none },
     { day := Weekday.saturday, type := DayType.REST, session := none },
     { day := Weekday.sunday, type := DayType.REST, session := none }] := by
  have h4 : (4 : ℝ) ≤ easyDistOf budgetOkProfile := by
    rw [budgetOk_easyDist]
    norm_num
  have hsm : budgetOkProfile.schedule Weekday.monday = DayType.EASY := rfl
  have hstu : budgetOkProfile.schedule Weekday.tuesday = DayType.REST := rfl
  have hsw : budgetOkProfile.schedule Weekday.wednesday = DayType.REST := rfl
  have hsth : budgetOkProfile.schedule Weekday.thursday = DayType.REST := rfl
  have hsf : budgetOkProfile.schedule Weekday.friday = DayType.REST := rfl
  have hssa : budgetOkProfile.schedule Weekday.saturday = DayType.REST := rfl
  have hssu : budgetOkProfile.schedule Weekday.sunday = DayType.REST := rfl
  have hsp : ∀ w, budgetOkProfile.scheduleSport w = Sport.run := fun _ => rfl
  simp [dailyPlansOf, dayOrder, dayPlanFor, hsm, hstu, hsw, hsth, hsf, hssa, hssu, hsp, h4]

theorem budgetOk_actual : actualTotalOf budgetOkProfile 0 = 6 := by
  rw [actualTotalOf, budgetOk_plans]
  simp [sumDist, sessionDist, createEasyRun, budgetOk_easyDist]

theorem budgetOk_delta : perEasyDeltaOf budgetOkProfile 0 = 15 := by
  have htarget : targetKmOf budgetOkProfile = 21 := by
    rw [targetKmOf, show ((budgetOkProfile.weeklyVolume : ℚ) : ℝ) = 21 by
      norm_num [budgetOkProfile]]
    exact max_eq_right (by norm_num)
  rw [perEasyDeltaOf, htarget, budgetOk_actual,
    show easyDaysCountOf budgetOkProfile = 1 from by decide]
  norm_num

/-- Witness for C1 (amended): one easy day and a 21 km target; the floor
never binds and the reconciled total lands within the `0.1` band. -/
theorem budget_conservation_witness :
    0 ≤ budgetOkProfile.weeklyVolume ∧ 0 < easyDaysCountOf budgetOkProfile ∧
      |(generatePlan budgetOkProfile 0).totalDistance - (↑budgetOkProfile.weeklyVolume : ℝ)| ≤
        0.1 * (easyDaysCountOf budgetOkProfile : ℝ) := by
  refine ⟨by norm_num [budgetOkProfile], by decide, ?_⟩
  apply budget_conservation budgetOkProfile 0 (by norm_num [budgetOkProfile]) (by decide)
  intro d hd s hs hty
  rw [budgetOk_plans] at hd
  simp only [List.mem_cons, List.not_mem_nil, or_false] at hd
  rcases hd with rfl | rfl | rfl | rfl | rfl | rfl | rfl
  · simp only [Option.some.injEq] at hs
    rw [← hs]
    have : (createEasyRun budgetOkProfile 0 (easyDistOf budgetOkProfile)).distance =
        easyDistOf budgetOkProfile := rfl
    rw [this, budgetOk_easyDist, budgetOk_delta]
    norm_num
  all_goals cases hs

/-- Every member of the placeholder set is already trimmed and lowercase. -/
theorem placeholder_fixedpoint (v : String) (hv : v ∈ Enc.PLACEHOLDER_STEP_VALUES) :
    jsToLower (jsTrim v) = v := by
  simp only [Enc.PLACEHOLDER_STEP_VALUES, List.mem_cons, List.not_mem_nil, or_false] at hv
  rcases hv with rfl | rfl | rfl | rfl | rfl | rfl | rfl <;> decide

theorem parseDurationToFit_placeholder (raw : String)
    (h : jsToLower (jsTrim raw) ∈ Enc.PLACEHOLDER_STEP_VALUES) :
    Enc.parseDurationToFit raw = none := by
  have hinner : Enc.isPlaceholderStep (jsToLower (jsTrim raw)) = true := by
    rw [Enc.isPlaceholderStep, placeholder_fixedpoint _ h]
    exact decide_eq_true h
  simp only [Enc.parseDurationToFit]
  rw [if_pos hinner]

/-- C6: a warmup (respectively cooldown) whose trimmed, lowercased text is a
placeholder value produces no warmup (respectively cooldown) step in either
the ICU workout text or the FIT step list. -/
theorem placeholder_elision (s : WorkoutSession ℚ) :
    (jsToLower (jsTrim s.warmup) ∈ Enc.PLACEHOLDER_STEP_VALUES →
      Enc.fitWarmupSteps s = [] ∧ Enc.icuWarmupChunks s = [] ∧
      Enc.buildFitWorkoutSteps s =
        (if s.intervals = [] then [Enc.fitSingleStep s]
         else Enc.intervalBlocks s 0 s.intervals) ++ Enc.fitCooldownSteps s ∧
      Enc.formatIcuWorkoutText s = Enc.getDynamicTitle s ++ "\n\n" ++
        joinSep "; " (Enc.icuMainChunks s ++ Enc.icuCooldownChunks s)) ∧
    (jsToLower (jsTrim s.cooldown) ∈ Enc.PLACEHOLDER_STEP_VALUES →
      Enc.fitCooldownSteps s = [] ∧ Enc.icuCooldownChunks s = [] ∧
      Enc.buildFitWorkoutSteps s = Enc.fitWarmupSteps s ++
        (if s.intervals = [] then [Enc.fitSingleStep s]
         else Enc.intervalBlocks s (Enc.fitWarmupSteps s).length s.intervals) ∧
      Enc.formatIcuWorkoutText s = Enc.getDynamicTitle s ++ "\n\n" ++
        joinSep "; " (Enc.icuWarmupChunks s ++ Enc.icuMainChunks s)) := by
  constructor
  · intro h
    have hph : Enc.isPlaceholderStep s.warmup = true := decide_eq_true h
    have hwu : Enc.fitWarmupSteps s = [] := by
      rw [Enc.fitWarmupSteps, parseDurationToFit_placeholder _ h]
    have hic : Enc.icuWarmupChunks s = [] := by
      rw [Enc.icuWarmupChunks, if_neg]
      rintro ⟨hf, -⟩
      rw [hph] at hf
      cases hf
    refine ⟨hwu, hic, ?_, ?_⟩
    · simp only [Enc.buildFitWorkoutSteps, hwu, List.length_nil, List.nil_append]
    · simp only [Enc.formatIcuWorkoutText, hic, List.nil_append]
  · intro h
    have hph : Enc.isPlaceholderStep s.cooldown = true := decide_eq_true h
    have hcd : Enc.fitCooldownSteps s = [] := by
      rw [Enc.fitCooldownSteps, parseDurationToFit_placeholder _ h]
    have hic : Enc.icuCooldownChunks s = [] := by
      rw [Enc.icuCooldownChunks, if_neg]
      rintro ⟨hf, -⟩
      rw [hph] at hf
      cases hf
    refine ⟨hcd, hic, ?_, ?_⟩
    · simp only [Enc.buildFitWorkoutSteps, hcd, List.append_nil]
    · simp only [Enc.formatIcuWorkoutText, hic, List.append_nil]

/-- Witness for C6: a session whose warmup is exactly `"N/A"` (and whose
cooldown is `"none"`) yields zero warmup and cooldown steps in both the text
and the binary step list. -/
theorem placeholder_elision_witness :
    jsToLower (jsTrim placeholderSession.warmup) ∈ Enc.PLACEHOLDER_STEP_VALUES ∧
      jsToLower (jsTrim placeholderSession.cooldown) ∈ Enc.PLACEHOLDER_STEP_VALUES ∧
      Enc.fitWarmupSteps placeholderSession = [] ∧
      Enc.icuWarmupChunks placeholderSession = [] ∧
      Enc.fitCooldownSteps placeholderSession = [] ∧
      Enc.icuCooldownChunks placeholderSession = [] :=
  ⟨by decide, by decide,
    ((placeholder_elision placeholderSession).1 (by decide)).1,
    ((placeholder_elision placeholderSession).1 (by decide)).2.1,
    ((placeholder_elision placeholderSession).2 (by decide)).1,
    ((placeholder_elision placeholderSession).2 (by decide)).2.1⟩

theorem intervalBlocks_append (s : WorkoutSession ℚ) :
    ∀ (pre post : List (Interval ℚ)) (n : ℕ),
      Enc.intervalBlocks s n (pre ++ post) =
        Enc.intervalBlocks s n pre ++
          Enc.intervalBlocks s (n + (Enc.intervalBlocks s n pre).length) post := by
  intro pre
  induction pre with
  | nil =>
    intro post n
    simp [Enc.intervalBlocks]
  | cons int pre ih =>
    intro post n
    simp only [List.cons_append, Enc.intervalBlocks, List.append_eq]
    rw [ih]
    rw [List.append_assoc]
    have hlen : n + (Enc.blockFor s int n).length +
        (Enc.intervalBlocks s (n + (Enc.blockFor s int n).length) pre).length =
        n + (Enc.blockFor s int n ++
          Enc.intervalBlocks s (n + (Enc.blockFor s int n).length) pre).length := by
      rw [List.length_append]
      omega
    rw [hlen]

/-- C4: for every interval of a session with repetition count above one, the
FIT step builder emits the work step, then the optional recovery step
(exactly when the rest text parses to a duration), then a trailing repeat
pseudo-step whose target value is the repetition count and whose
duration-value field stores the index of the first step of the block. -/
theorem repeat_encoding (s : WorkoutSession ℚ) (pre post : List (Interval ℚ)) (int : Interval ℚ)
    (hsplit : s.intervals = pre ++ int :: post) (hreps : 1 < Enc.jsReps int) :
    (∃ pfx sfx : List Enc.FitStepSpec,
      Enc.buildFitWorkoutSteps s =
        pfx ++ Enc.fitWorkStep s int ::
          (Enc.fitRecoverySteps s int ++
            ({ wktStepName := "Repeat " ++ natToStr (Enc.jsReps int) ++ "x"
               durationType := Enc.DurationType.repeatUntilStepsCmplt
               durationValue := (pfx.length : ℤ)
               targetType := Enc.TargetType.openTarget
               targetValue := some ((Enc.jsReps int : ℕ) : ℤ)
               customTargetValueLow := none
               customTargetValueHigh := none
               intensity := none } : Enc.FitStepSpec) :: sfx)) ∧
    (Enc.parseDurationToFit int.rest = none → Enc.fitRecoverySteps s int = []) ∧
    (∀ r : Enc.DurationSpec, Enc.parseDurationToFit int.rest = some r →
      Enc.fitRecoverySteps s int =
        [Enc.buildFitStep (if Enc.isBike s then "Recovery Z2" else "Recovery") r
          Enc.Intensity.recovery none (Enc.hrRangeOf s) none]) := by
  refine ⟨?_, ?_, ?_⟩
  · have hne : ¬s.intervals = [] := by
      rw [hsplit]
      simp
    have hmain : Enc.buildFitWorkoutSteps s =
        Enc.fitWarmupSteps s ++
          Enc.intervalBlocks s (Enc.fitWarmupSteps s).length s.intervals ++
          Enc.fitCooldownSteps s := by
      simp only [Enc.buildFitWorkoutSteps]
      rw [if_neg hne]
    refine ⟨Enc.fitWarmupSteps s ++
        Enc.intervalBlocks s (Enc.fitWarmupSteps s).length pre, ?_, ?_⟩
    · exact Enc.intervalBlocks s
        ((Enc.fitWarmupSteps s).length +
          (Enc.intervalBlocks s (Enc.fitWarmupSteps s).length pre).length +
          (Enc.blockFor s int
            ((Enc.fitWarmupSteps s).length +
              (Enc.intervalBlocks s (Enc.fitWarmupSteps s).length pre).length)).length) post ++
        Enc.fitCooldownSteps s
    rw [hmain, hsplit, intervalBlocks_append s pre (int :: post) (Enc.fitWarmupSteps s).length]
    simp only [Enc.intervalBlocks]
    simp only [Enc.blockFor]
    rw [if_pos hreps]
    simp only [Enc.repeatStepFor, Enc.ICU_GARMIN_SAFE_INTENSITY, if_pos]
    simp [List.append_assoc, List.length_append]
  · intro h
    rw [Enc.fitRecoverySteps, h]
  · intro r h
    rw [Enc.fitRecoverySteps, h]

theorem removeAllCI_nil (pat : List Char) : Enc.removeAllCI pat [] = [] := by
  rw [Enc.removeAllCI]

theorem normalizePaceRange_empty : Enc.normalizePaceRange "" = "" := by
  simp only [Enc.normalizePaceRange]
  rw [removeAllCI_nil, removeAllCI_nil, if_pos (by decide : jsTrim ⟨[]⟩ = "")]

theorem parsePaceRangeToSpeedRaw_empty (pace : Option String) (h : pace.getD "" = "") :
    Enc.parsePaceRangeToSpeedRaw pace = none := by
  simp only [Enc.parsePaceRangeToSpeedRaw, h, normalizePaceRange_empty, if_true]

/-- Witness for C4: the specimen threshold session (one interval 5 x 2000 m
with rest `"60s"`, placeholder warmup and cooldown) encodes to exactly three
steps: work step, rest step, and a repeat pseudo-step with target value 5
pointing at index 0. -/
theorem repeat_encoding_witness :
    (specimenSession.intervals = [] ++ specimenInterval :: [] ∧
      1 < Enc.jsReps specimenInterval) ∧
    Enc.buildFitWorkoutSteps specimenSession =
      [{ wktStepName := "Run", durationType := Enc.DurationType.distance,
         durationValue := 200000, targetType := Enc.TargetType.openTarget },
       { wktStepName := "Recovery", durationType := Enc.DurationType.time,
         durationValue := 60000, targetType := Enc.TargetType.openTarget,
         intensity := some Enc.Intensity.rest },
       { wktStepName := "Repeat 5x", durationType := Enc.DurationType.repeatUntilStepsCmplt,
         durationValue := 0, targetType := Enc.TargetType.openTarget,
         targetValue := some 5 }] := by
  refine ⟨⟨rfl, by decide⟩, ?_⟩
  obtain ⟨-, -, hrec⟩ :=
    repeat_encoding specimenSession [] [] specimenInterval rfl (by decide)
  have hdur60 : Enc.parseDurationToFit specimenInterval.rest =
      some ⟨Enc.DurationType.time, 60000⟩ := by
    show Enc.parseDurationToFit "60s" = some ⟨Enc.DurationType.time, 60000⟩
    have hkm : Enc.kmCase (jsToLower (jsTrim "60s")).data = none := by decide
    have hsec : Enc.secCase (jsToLower (jsTrim "60s")).data =
        some ⟨Enc.DurationType.time, 60000⟩ := by
      have hfind : Enc.findNumberUnit "s".data false false (jsToLower (jsTrim "60s")).data =
          some ⟨60, 0, ['6', '0']⟩ := by decide
      rw [Enc.secCase, hfind]
      have hmax : max (0 : ℚ) (Enc.jsNumQ ⟨60, 0, ['6', '0']⟩) = 60 := by
        rw [Enc.jsNumQ]
        norm_num
      simp only [Option.bind]
      rw [hmax, if_pos (by norm_num : (0 : ℚ) < 60),
        show qround ((60 : ℚ) * 1000) = 60000 from
          qround_eq _ _ (by norm_num) (by norm_num)]
    simp only [Enc.parseDurationToFit]
    rw [if_neg (by decide : ¬Enc.isPlaceholderStep (jsToLower (jsTrim "60s")) = true),
      hkm, hsec]
  have hrecsteps : Enc.fitRecoverySteps specimenSession specimenInterval =
      [{ wktStepName := "Recovery", durationType := Enc.DurationType.time,
         durationValue := 60000, targetType := Enc.TargetType.openTarget,
         intensity := some Enc.Intensity.rest }] := by
    rw [hrec _ hdur60]
    have hhr : Enc.hrRangeOf specimenSession = none := rfl
    have hpr : Enc.parsePaceRangeToSpeedRaw none = none :=
      parsePaceRangeToSpeedRaw_empty none rfl
    simp only [hhr, hpr, Enc.buildFitStep]
    decide
  have hwu : Enc.fitWarmupSteps specimenSession = [] := by
    rw [Enc.fitWarmupSteps, parseDurationToFit_placeholder _ (by decide)]
  have hcd : Enc.fitCooldownSteps specimenSession = [] := by
    rw [Enc.fitCooldownSteps, parseDurationToFit_placeholder _ (by decide)]
  have hmain : Enc.buildFitWorkoutSteps specimenSession =
      Enc.intervalBlocks specimenSession 0 specimenSession.intervals := by
    simp only [Enc.buildFitWorkoutSteps, hwu, List.length_nil, List.nil_append, hcd,
      List.append_nil]
    rw [if_neg (by decide : ¬specimenSession.intervals = [])]
  have hwork : Enc.fitWorkStep specimenSession specimenInterval =
      { wktStepName := "Run", durationType := Enc.DurationType.distance,
        durationValue := 200000, targetType := Enc.TargetType.openTarget } := by
    have hdsec : ¬(0 : ℚ) < specimenInterval.durationSec.getD 0 := by
      norm_num [specimenInterval]
    have hdist : max (0 : ℚ) specimenInterval.distance = 2000 := by
      norm_num [specimenInterval]
    have hdur : Enc.repDurationOf specimenSession specimenInterval =
        ⟨Enc.DurationType.distance, 200000⟩ := by
      simp only [Enc.repDurationOf]
      rw [if_neg hdsec, hdist, if_pos (by norm_num : (0 : ℚ) < 2000),
        show qround ((2000 : ℚ) * 100) = 200000 from
          qround_eq _ _ (by norm_num) (by norm_num)]
    have hhr : Enc.hrRangeOf specimenSession = none := rfl
    have hpw : Enc.powerRangeOf specimenInterval = none := rfl
    have hpr : Enc.parsePaceRangeToSpeedRaw (some specimenInterval.pace) = none :=
      parsePaceRangeToSpeedRaw_empty _ rfl
    simp only [Enc.fitWorkStep, hdur, hhr, hpw, hpr, Enc.buildFitStep]
    decide
  have hblocks : Enc.intervalBlocks specimenSession 0 specimenSession.intervals =
      Enc.fitWorkStep specimenSession specimenInterval ::
        (Enc.fitRecoverySteps specimenSession specimenInterval ++
          [Enc.repeatStepFor specimenInterval 0]) := by
    show Enc.intervalBlocks specimenSession 0 [specimenInterval] = _
    simp only [Enc.intervalBlocks, Enc.blockFor, List.append_nil]
    rw [if_pos (by decide : 1 < Enc.jsReps specimenInterval)]
  rw [hmain, hblocks, hwork, hrecsteps]
  decide

theorem qround_mono (q r : ℚ) (h : q ≤ r) : qround q ≤ qround r := by
  rw [qround, qround]
  exact Int.floor_le_floor (by linarith)

/-- C5: when a pace-range string has exactly two bound tokens whose parsed
second values are both positive, the encoded speed range maps the slower
bound (the larger seconds-per-km value) to the low speed and the faster
bound to the high speed, regardless of the textual order of the bounds, and
the low bound never exceeds the high bound. -/
theorem pace_band_inversion (pace s1 s2 : String) (a b : ℚ)
    (hparts : Enc.paceBoundParts (some pace) = [s1, s2])
    (ha : Enc.toSecPR s1 = a) (hb : Enc.toSecPR s2 = b)
    (hapos : 0 < a) (hbpos : 0 < b) :
    Enc.parsePaceRangeToSpeedRaw (some pace) =
      some { low := qround (1000 / max a b * 1000),
             high := qround (1000 / min a b * 1000) } ∧
    qround (1000 / max a b * 1000) ≤ qround (1000 / min a b * 1000) := by
  have hmin : 0 < min a b := lt_min hapos hbpos
  have hmax : 0 < max a b := lt_of_lt_of_le hmin min_le_max
  constructor
  · have htext : ¬Enc.normalizePaceRange pace = "" := by
      intro h0
      have hempty : Enc.paceBoundParts (some pace) = [] := by
        simp only [Enc.paceBoundParts, Option.getD_some, h0]
        decide
      rw [hempty] at hparts
      exact (List.cons_ne_nil s1 [s2] hparts.symm).elim
    have hvals : ([s1, s2].map Enc.toSecPR).filter (fun v => decide (0 < v)) = [a, b] := by
      simp [ha, hb, hapos, hbpos]
    have hmaxq : Enc.maxQ [a, b] = max a b := by
      simp [Enc.maxQ]
    have hminq : Enc.minQ [a, b] = min a b := by
      simp [Enc.minQ]
    simp only [Enc.parsePaceRangeToSpeedRaw, Option.getD_some]
    rw [if_neg htext, hparts, if_neg (by simp : ¬([s1, s2] : List String) = []), hvals,
      if_neg (by simp : ¬([a, b] : List ℚ) = []), hmaxq, hminq]
  · have h1 : (1000 : ℚ) / max a b ≤ 1000 / min a b := by
      rw [div_le_div_iff₀ hmax hmin]
      have h2 := min_le_max (α := ℚ) (a := a) (b := b)
      nlinarith
    exact qround_mono _ _ (mul_le_mul_of_nonneg_right h1 (by norm_num))

/-- Witness for C5: the intentionally reversed pace text `"4:30-4:10/km"`
encodes to the speed range 3704–4000 mm/s: the slower 4:30 bound gives the
low speed and the faster 4:10 bound the high speed. -/
theorem pace_band_inversion_witness :
    Enc.paceBoundParts (some "4:30-4:10/km") = ["4:30", "4:10"] ∧
    Enc.toSecPR "4:30" = 270 ∧ Enc.toSecPR "4:10" = 250 ∧
    (0 : ℚ) < 270 ∧ (0 : ℚ) < 250 ∧
    Enc.parsePaceRangeToSpeedRaw (some "4:30-4:10/km") =
      some { low := 3704, high := 4000 } ∧ (3704 : ℤ) ≤ 4000 := by
  have h4 : Enc.jsNumberOpt "4" = some 4 := by
    rw [show Enc.jsNumberOpt "4" = some (1 * ((4 : ℕ) : ℚ)) from rfl]
    norm_num
  have h30 : Enc.jsNumberOpt "30" = some 30 := by
    rw [show Enc.jsNumberOpt "30" = some (1 * ((30 : ℕ) : ℚ)) from rfl]
    norm_num
  have h10 : Enc.jsNumberOpt "10" = some 10 := by
    rw [show Enc.jsNumberOpt "10" = some (1 * ((10 : ℕ) : ℚ)) from rfl]
    norm_num
  have h430 : Enc.toSecPR "4:30" = 270 := by
    rw [Enc.toSecPR, show splitChar ':' "4:30" = ["4", "30"] from by decide]
    simp only [List.map_cons, List.map_nil, h4, h30]
    norm_num
  have h410 : Enc.toSecPR "4:10" = 250 := by
    rw [Enc.toSecPR, show splitChar ':' "4:10" = ["4", "10"] from by decide]
    simp only [List.map_cons, List.map_nil, h4, h10]
    norm_num
  have hrm1 : Enc.removeAllCI "/km".data "4:30-4:10/km".data = "4:30-4:10".data := by
    simp +decide [Enc.removeAllCI]
  have hrm2 : Enc.removeAllCI "pace".data "4:30-4:10".data = "4:30-4:10".data := by
    simp +decide [Enc.removeAllCI]
  have hnorm : Enc.normalizePaceRange "4:30-4:10/km" = "4:30-4:10/km" := by
    simp only [Enc.normalizePaceRange]
    rw [hrm1, hrm2, show jsTrim ⟨"4:30-4:10".data⟩ = "4:30-4:10" from by decide,
      if_neg (by decide : ¬("4:30-4:10" : String) = "")]
    decide
  have hparts : Enc.paceBoundParts (some "4:30-4:10/km") = ["4:30", "4:10"] := by
    simp only [Enc.paceBoundParts, Option.getD_some, hnorm]
    decide
  obtain ⟨heq, -⟩ := pace_band_inversion "4:30-4:10/km" "4:30" "4:10" 270 250 hparts
    h430 h410 (by norm_num) (by norm_num)
  refine ⟨hparts, h430, h410, by norm_num, by norm_num, ?_, by norm_num⟩
  rw [heq, show max (270 : ℚ) 250 = 270 from by norm_num,
    show min (270 : ℚ) 250 = 250 from by norm_num,
    show qround ((1000 : ℚ) / 270 * 1000) = 3704 from
      qround_eq _ _ (by norm_num) (by norm_num),
    show qround ((1000 : ℚ) / 250 * 1000) = 4000 from
      qround_eq _ _ (by norm_num) (by norm_num)]

/-- Witness for C8: a 5000 m benchmark run in 19:07; the predicted pace at
10000 m is at least the predicted pace at 5000 m. -/
theorem calculatePaceForDistance_monotone_witness :
    (0 : ℝ) < 5000 ∧ 0 < ((timeToSeconds "19:07" : ℤ) : ℝ) ∧ (5000 : ℝ) ≤ 5000 ∧
      (5000 : ℝ) < 10000 ∧
      calculatePaceForDistance 5000 "19:07" 5000 ≤ calculatePaceForDistance 5000 "19:07" 10000 := by
  have ht : 0 < ((timeToSeconds "19:07" : ℤ) : ℝ) := by
    rw [show timeToSeconds "19:07" = (1147 : ℤ) from by decide]
    norm_num
  exact ⟨by norm_num, ht, by norm_num, by norm_num,
    calculatePaceForDistance_monotone 5000 "19:07" 5000 10000 (by norm_num) ht (by norm_num)
      (by norm_num)⟩

end SubT
